import Mathlib

/-!
# LoRa WAN node driver (components/lora/node/lora.c)

A shallow embedding of the driver's file-scope state, of the LMIC event handler
`onEvent`, of the start-up job `lora_init`, and of the entry points
`lora_setup`, `lora_mac_set`, `lora_mac_get`, `lora_join`, `lora_tx` and
`lora_set_rx_callback`.

Modelling conventions.

* The file-scope variables of lora.c are the fields of `Driver`, with the C names.
  `u1_t` / `u4_t` variables are natural numbers; a C truth test `if (x)` is `x ≠ 0`.
* Byte arrays (`APPEUI`, `APPKEY`, ...) are lists of bytes; `memcmp` reads a
  missing position as 0, so every statement below holds for arrays of the
  declared sizes in particular.
* Calls that leave lora.c (LMIC, the HAL, `_lora_tx`, the event group, the receive
  callback) are recorded, in program order, in the ghost field `trace`.
* The LMIC stack runs in its own task.  What it does while a driver call is in
  progress is given to the call as lists of `StackCall`s: those that run between
  the request and the wait, and those that run, one at a time, while the caller
  is blocked in `xEventGroupWaitBits`.  A call whose wait is never satisfied ends
  as `Outcome.blocked`, with the state in which the caller stays blocked.
* Results of callees whose code is not in lora.c (`os_init`, `malloc`, `_lora_tx`,
  `_lora_mac_set`, `_lora_mac_get`, `_lora_setup`) are inputs of the call.
* The code is embedded as it is compiled for the LMIC stack
  (CONFIG_LUA_RTOS_LORA_NODE_LMIC_STACK), the only build in which `onEvent` and
  `lora_init` exist.  `lora_setup_semtech` is `lora_setup` as it is compiled for
  the Semtech stack.
-/

namespace Lora

/-! ## Errors -/

/-- Error codes registered with DRIVER_REGISTER_ERROR (lora.c 63-74). -/
inductive LoraErr
  | KeysNotConfigured
  | JoinDenied
  | UnexpectedResponse
  | NotJoined
  | NotSetup
  | NoMem
  | ABPExpected
  | CantSetup
  | TransmissionFailAckNotReceived
  | InvalidArgument
  | InvalidDR
  | InvalidBand
  deriving DecidableEq, Repr

/-- A non-NULL `driver_error_t *`: either built by
`driver_operation_error(LORA_DRIVER, e, NULL)` in lora.c, or handed back by a
callee and propagated unchanged. -/
inductive driver_error_t
  | lora (e : LoraErr)
  | callee (code : Nat)
  deriving DecidableEq, Repr

/-- Value returned by an entry point: `none` is the C `NULL` (success). -/
abbrev Result := Option driver_error_t

/-- The call `driver_operation_error(LORA_DRIVER, e, NULL)`. -/
def driver_operation_error (e : LoraErr) : Result := some (driver_error_t.lora e)

/-! ## Event bits (lora.c 76-80) -/

def evLORA_INITED : Nat := 1 <<< 0
def evLORA_JOINED : Nat := 1 <<< 1
def evLORA_JOIN_DENIED : Nat := 1 <<< 2
def evLORA_TX_COMPLETE : Nat := 1 <<< 3
def evLORA_ACK_NOT_RECEIVED : Nat := 1 <<< 4

/-! ## The LMIC side -/

/-- LMIC event codes, the cases of the switch in `onEvent` (lora.c 146-227);
`EV_OTHER` stands for any value that reaches `default`. -/
inductive ev_t
  | EV_SCAN_TIMEOUT
  | EV_BEACON_FOUND
  | EV_BEACON_MISSED
  | EV_BEACON_TRACKED
  | EV_JOINING
  | EV_JOINED
  | EV_RFU1
  | EV_JOIN_FAILED
  | EV_REJOIN_FAILED
  | EV_TXCOMPLETE
  | EV_LOST_TSYNC
  | EV_RESET
  | EV_RXCOMPLETE
  | EV_LINK_DEAD
  | EV_LINK_ALIVE
  | EV_OTHER
  deriving DecidableEq, Repr

/-- The fields of the global `LMIC` structure that `onEvent` reads. They belong
to the stack and hold whatever the stack wrote before it raised the event. -/
structure lmic_t where
  pendTxConf : Nat
  txrxFlags : Nat
  dataLen : Nat
  dataBeg : Nat
  frame : List Nat
  deriving DecidableEq, Repr

/-- Build-time configuration and the LMIC constants used by lora.c. The
constants are declared in lmic.h, which is not part of the reviewed source, so
they are parameters of the model. -/
structure Config where
  BAND_EU868 : Bool
  BAND_US915 : Bool
  DR_SF7 : Nat
  DR_SF9 : Nat
  TXRX_ACK : Nat
  TXRX_NACK : Nat
  deriving DecidableEq, Repr

/-- Calls that leave lora.c, recorded in program order. -/
inductive Action
  | xEventGroupCreate
  | os_init
  | os_setCallback_lora_init
  | LMIC_reset
  | LMIC_setupChannel (chnl : Nat) (freq : Nat)
  | LMIC_selectSubBand (band : Nat)
  | LMIC_setLinkCheckMode (enabled : Nat)
  | LMIC_setAdrMode (enabled : Nat)
  | LMIC_dn2Dr (dr : Nat)
  | LMIC_setDrTxpow (dr : Nat) (txpow : Nat)
  | hal_lmic_join
  | _lora_tx (cnf : Int) (port : Int) (payload : List Nat) (payload_len : Nat)
  | xEventGroupSetBits (bits : Nat)
  | xEventGroupWaitBits (bits : Nat)
  | lora_rx_callback (cb : Nat) (port : Nat) (payload : List Char)
  | _lora_setup
  | _lora_mac_set (command : Char) (value : List Char)
  | _lora_mac_get (command : Char)
  deriving DecidableEq, Repr

/-! ## Driver state (lora.c 89-141) -/

/-- The file-scope variables of lora.c, plus the ghost `trace`. -/
structure Driver where
  /-- Mutex `lora_mtx`: true while it is held. -/
  lora_mtx : Bool
  /-- Whether `loraEvent != NULL`: the event group has been created. -/
  loraEvent_created : Bool
  /-- The bits of the event group `loraEvent`. -/
  loraEvent : Nat
  APPEUI : List Nat
  DEVEUI : List Nat
  APPKEY : List Nat
  joined : Nat
  DEVADDR : Nat
  NWKSKEY : List Nat
  APPSKEY : List Nat
  session_init : Nat
  msgid : Nat
  setup : Nat
  /-- Pointer `lora_rx_callback`: `none` is NULL, `some f` a function reference. -/
  lora_rx_callback : Option Nat
  current_dr : Nat
  adr : Nat
  trace : List Action
  deriving DecidableEq, Repr

/-- Append one external call to the trace. -/
def Driver.log (s : Driver) (a : Action) : Driver :=
  { s with trace := s.trace ++ [a] }

def mtx_lock (s : Driver) : Driver := { s with lora_mtx := true }

def mtx_unlock (s : Driver) : Driver := { s with lora_mtx := false }

/-- The call `xEventGroupSetBits(loraEvent, bits)`. -/
def xEventGroupSetBits (s : Driver) (bits : Nat) : Driver :=
  { s with loraEvent := s.loraEvent ||| bits,
           trace := s.trace ++ [Action.xEventGroupSetBits bits] }

/-! ## Helpers that live outside lora.c -/

/-- The C library `memcmp` on the first `n` bytes: 0 when they agree, else the
difference of the first two bytes that differ. -/
def memcmp (a b : List Nat) : Nat → Int
  | 0 => 0
  | n + 1 =>
    if a.headD 0 = b.headD 0 then memcmp a.tail b.tail n
    else (a.headD 0 : Int) - (b.headD 0 : Int)

/-- The compound literal `(u1_t[]){0,0,0,0,0,0,0,0}`. -/
def zeros8 : List Nat := [0, 0, 0, 0, 0, 0, 0, 0]

/-- The compound literal of sixteen zero bytes. -/
def zeros16 : List Nat := [0, 0, 0, 0, 0, 0, 0, 0, 0, 0, 0, 0, 0, 0, 0, 0]

/-- The C library `strlen`: a C string is modelled by its characters before the
terminating NUL. -/
def strlen (data : List Char) : Nat := data.length

/-- Value of one hexadecimal digit (0 for any other character). -/
def hexDigitVal (c : Char) : Nat :=
  if 48 ≤ c.toNat ∧ c.toNat ≤ 57 then c.toNat - 48
  else if 97 ≤ c.toNat ∧ c.toNat ≤ 102 then c.toNat - 87
  else if 65 ≤ c.toNat ∧ c.toNat ≤ 70 then c.toNat - 55
  else 0

/-- Modelled from the spec: the helper `hex_string_to_val` is not in lora.c. The
spec describes it as byte-pair decoding of a hex string; `len` is the number of
bytes to produce (the fourth C argument, `reverse`, is 0 at the only call). -/
def hex_string_to_val : List Char → Nat → List Nat
  | _, 0 => []
  | hi :: lo :: rest, n + 1 => (hexDigitVal hi * 16 + hexDigitVal lo) :: hex_string_to_val rest n
  | _, _ + 1 => []

/-- One hexadecimal digit as a character. -/
def hexDigit (v : Nat) : Char :=
  if v < 10 then Char.ofNat (48 + v) else Char.ofNat (87 + v)

/-- Modelled from the spec: the helper `val_to_hex_string` is not in lora.c. The
spec describes it as rendering `len` bytes as a textual hex encoding, two
digits per byte. -/
def val_to_hex_string : List Nat → Nat → List Char
  | _, 0 => []
  | [], _ + 1 => []
  | b :: rest, n + 1 => hexDigit (b % 256 / 16) :: hexDigit (b % 16) :: val_to_hex_string rest n

/-! ## Credential predicates (lora.c 269-288) -/

/-- The predicate `lora_must_join()` (lora.c 269-274). Both `memcmp` calls in
the source read `APPSKEY`. -/
def lora_must_join (s : Driver) : Bool :=
  (s.DEVADDR == 0) &&
  (memcmp s.APPSKEY zeros16 16 == 0) &&
  (memcmp s.APPSKEY zeros16 16 == 0)

/-- The predicate `lora_can_participate_otaa()` (lora.c 276-281). -/
def lora_can_participate_otaa (s : Driver) : Bool :=
  (memcmp s.APPEUI zeros8 8 != 0) &&
  (memcmp s.DEVEUI zeros8 8 != 0) &&
  (memcmp s.APPKEY zeros16 16 != 0)

/-- The predicate `lora_can_participate_abp()` (lora.c 283-288). Both `memcmp`
calls in the source read `APPSKEY`. -/
def lora_can_participate_abp (s : Driver) : Bool :=
  (s.DEVADDR != 0) &&
  (memcmp s.APPSKEY zeros16 16 != 0) &&
  (memcmp s.APPSKEY zeros16 16 != 0)

/-! ## The stack context: `lora_init` and `onEvent` -/

/-- The LMIC start-up job `lora_init` (lora.c 231-266). Only the first two
arguments of `LMIC_setupChannel` are recorded. -/
def lora_init (cfg : Config) (s : Driver) : Driver :=
  let s := s.log Action.LMIC_reset
  let s :=
    if cfg.BAND_EU868 then
      ((((((((s.log (Action.LMIC_setupChannel 0 868100000)).log
        (Action.LMIC_setupChannel 1 868300000)).log
        (Action.LMIC_setupChannel 2 868500000)).log
        (Action.LMIC_setupChannel 3 867100000)).log
        (Action.LMIC_setupChannel 4 867300000)).log
        (Action.LMIC_setupChannel 5 867500000)).log
        (Action.LMIC_setupChannel 6 867700000)).log
        (Action.LMIC_setupChannel 7 867900000)).log
        (Action.LMIC_setupChannel 8 868800000)
    else s
  let s := if cfg.BAND_US915 then s.log (Action.LMIC_selectSubBand 1) else s
  let s := s.log (Action.LMIC_setLinkCheckMode 0)
  let s := { s with adr := 0 }
  let s := s.log (Action.LMIC_setAdrMode 0)
  let s := s.log (Action.LMIC_dn2Dr cfg.DR_SF9)
  let s := { s with current_dr := cfg.DR_SF7 }
  let s := s.log (Action.LMIC_setDrTxpow s.current_dr 14)
  xEventGroupSetBits s evLORA_INITED

/-- The EV_TXCOMPLETE case of `onEvent` (lora.c 183-208). `malloc_ok` tells
whether the `malloc` of the hex buffer succeeds. -/
def onEvent_txcomplete (cfg : Config) (LMIC : lmic_t) (malloc_ok : Bool) (s : Driver) : Driver :=
  if LMIC.pendTxConf ≠ 0 then
    let s := if LMIC.txrxFlags &&& cfg.TXRX_ACK ≠ 0 then xEventGroupSetBits s evLORA_TX_COMPLETE else s
    let s := if LMIC.txrxFlags &&& cfg.TXRX_NACK ≠ 0 then xEventGroupSetBits s evLORA_ACK_NOT_RECEIVED else s
    s
  else
    let s :=
      match s.lora_rx_callback with
      | some cb =>
        if LMIC.dataLen ≠ 0 ∧ malloc_ok = true then
          s.log (Action.lora_rx_callback cb 1
            (val_to_hex_string (LMIC.frame.drop LMIC.dataBeg) LMIC.dataLen))
        else s
      | none => s
    xEventGroupSetBits s evLORA_TX_COMPLETE

/-- The LMIC event handler `onEvent` (lora.c 145-228). -/
def onEvent (cfg : Config) (LMIC : lmic_t) (malloc_ok : Bool) (ev : ev_t) (s : Driver) : Driver :=
  match ev with
  | ev_t.EV_JOINING => { s with joined := 0 }
  | ev_t.EV_JOINED =>
    let s := { s with joined := 1 }
    let s := xEventGroupSetBits s evLORA_JOINED
    s.log (Action.LMIC_dn2Dr cfg.DR_SF9)
  | ev_t.EV_JOIN_FAILED =>
    let s := { s with joined := 0 }
    xEventGroupSetBits s evLORA_JOIN_DENIED
  | ev_t.EV_REJOIN_FAILED => { s with joined := 0 }
  | ev_t.EV_TXCOMPLETE => onEvent_txcomplete cfg LMIC malloc_ok s
  | _ => s

/-- One activation of the stack context: the start-up job, or an event raised
with the given contents of `LMIC`. -/
inductive StackCall
  | lora_init
  | onEvent (ev : ev_t) (LMIC : lmic_t) (malloc_ok : Bool)
  deriving DecidableEq, Repr

/-- Effect of one activation of the stack context on the driver. -/
def stackRun (cfg : Config) (c : StackCall) (s : Driver) : Driver :=
  match c with
  | StackCall.lora_init => lora_init cfg s
  | StackCall.onEvent ev LMIC malloc_ok => onEvent cfg LMIC malloc_ok ev s

/-- Run a list of activations in order. -/
def stackRunAll (cfg : Config) : List StackCall → Driver → Driver
  | [], s => s
  | c :: rest, s => stackRunAll cfg rest (stackRun cfg c s)

/-! ## The blocking wait -/

/-- What the stack does during one blocking call. -/
structure WaitEnv where
  /-- Activations between the request and the entry into the wait. -/
  before_wait : List StackCall
  /-- Activations while the caller is blocked, in order. -/
  while_blocked : List StackCall
  deriving DecidableEq, Repr

/-- How a wait ends: the caller is woken with the value `uxBits`, or it stays
blocked for ever in state `s`. -/
inductive Wait
  | woken (uxBits : Nat) (s : Driver)
  | stuck (s : Driver)
  deriving DecidableEq, Repr

/-- The external calls made between state `s` and state `t`. -/
def newTrace (s t : Driver) : List Action := t.trace.drop s.trace.length

/-- The arguments of the `xEventGroupSetBits` calls of a piece of trace, in
order. -/
def setBitsOf : List Action → List Nat
  | [] => []
  | Action.xEventGroupSetBits b :: rest => b :: setBitsOf rest
  | _ :: rest => setBitsOf rest

/-- Successive `xEventGroupSetBits` calls on an event group of value `ev` on
which a task is blocked, waiting for any bit of `bits` with clear-on-exit. The
first call that leaves a bit of `bits` set unblocks the task inside that call:
the task is handed the value of the group at that moment and `bits` are
cleared at once; the calls after it only set their bits. The result is the
value handed to the task, if it was unblocked, and the event group at the end. -/
def deliverBits (bits : Nat) : Nat → List Nat → Option Nat × Nat
  | ev, [] => (none, ev)
  | ev, b :: rest =>
    if (ev ||| b) &&& bits ≠ 0 then
      (some (ev ||| b), rest.foldl (· ||| ·) ((ev ||| b) &&& (0xFFFFFFFF ^^^ bits)))
    else deliverBits bits (ev ||| b) rest

/-- The loop of `xEventGroupWaitBits(loraEvent, bits, pdTRUE, pdFALSE,
portMAX_DELAY)`: return at once, with the value of the event group, when one
of `bits` is set on entry, clearing `bits`; otherwise block and let the
activations of the stack run one after the other. The caller is unblocked
inside the first `xEventGroupSetBits` call that sets one of `bits`
(`deliverBits`); the handler that made the call runs to its end, and what it
sets after that call stays pending. The handlers never read the event group, so
their other effects are those of `stackRun`. `stuck`: the stack never sets one
of the bits. -/
def blockOn (cfg : Config) (bits : Nat) : List StackCall → Driver → Wait
  | [], s =>
    if s.loraEvent &&& bits ≠ 0 then
      Wait.woken s.loraEvent { s with loraEvent := s.loraEvent &&& (0xFFFFFFFF ^^^ bits) }
    else Wait.stuck s
  | c :: rest, s =>
    if s.loraEvent &&& bits ≠ 0 then
      Wait.woken s.loraEvent { s with loraEvent := s.loraEvent &&& (0xFFFFFFFF ^^^ bits) }
    else
      match deliverBits bits s.loraEvent (setBitsOf (newTrace s (stackRun cfg c s))) with
      | (some uxBits, ev) => Wait.woken uxBits { stackRun cfg c s with loraEvent := ev }
      | (none, _) => blockOn cfg bits rest (stackRun cfg c s)

/-- The call `xEventGroupWaitBits(loraEvent, bits, pdTRUE, pdFALSE,
portMAX_DELAY)` made by a driver entry point, preceded by what the stack does
before the caller reaches it. -/
def xEventGroupWaitBits (cfg : Config) (bits : Nat) (w : WaitEnv) (s : Driver) : Wait :=
  let s := stackRunAll cfg w.before_wait s
  let s := s.log (Action.xEventGroupWaitBits bits)
  blockOn cfg bits w.while_blocked s

/-- How a call of an entry point ends: it returns `result` in state `s`, or the
caller stays blocked in its wait, the driver being in state `s`. -/
inductive Outcome
  | returned (result : Result) (s : Driver)
  | blocked (s : Driver)
  deriving DecidableEq, Repr

/-- The driver state at the end of a call. -/
def Outcome.state : Outcome → Driver
  | Outcome.returned _ s => s
  | Outcome.blocked s => s

/-! ## Entry points -/

/-- Setup driver: `lora_setup` (lora.c 291-344), LMIC stack. `os_init_error` is
the value returned by `os_init()`. -/
def lora_setup (cfg : Config) (s0 : Driver) (band : Int) (os_init_error : Result)
    (w : WaitEnv) : Outcome :=
  if cfg.BAND_EU868 = true ∧ band ≠ 868 then
    Outcome.returned (driver_operation_error LoraErr.InvalidBand) s0
  else if cfg.BAND_US915 = true ∧ band ≠ 915 then
    Outcome.returned (driver_operation_error LoraErr.InvalidBand) s0
  else
    let s := mtx_lock s0
    if s.setup = 0 then
      let s :=
        if s.loraEvent_created = false then
          { s with loraEvent_created := true, trace := s.trace ++ [Action.xEventGroupCreate] }
        else s
      let s := s.log Action.os_init
      match os_init_error with
      | some _ =>
        let s := { s with setup := 0 }
        Outcome.returned (driver_operation_error LoraErr.CantSetup) (mtx_unlock s)
      | none =>
        let s := s.log Action.os_setCallback_lora_init
        match xEventGroupWaitBits cfg evLORA_INITED w s with
        | Wait.stuck s => Outcome.blocked s
        | Wait.woken _ s =>
          let s := { s with setup := 1 }
          Outcome.returned none (mtx_unlock s)
    else
      let s := { s with setup := 1 }
      Outcome.returned none (mtx_unlock s)

/-- The result of `lora_join` after the wait returned `uxBits` (lora.c 422-434). -/
def lora_join_result (uxBits : Nat) : Result :=
  if uxBits &&& evLORA_JOINED ≠ 0 then none
  else if uxBits &&& evLORA_JOIN_DENIED ≠ 0 then driver_operation_error LoraErr.NotJoined
  else driver_operation_error LoraErr.UnexpectedResponse

/-- Lines 406-418 of `lora_join`: reset the counter, set the data rate unless
ADR is active, and request the join. -/
def lora_join_request (s : Driver) : Driver :=
  let s := { s with msgid := 0 }
  let s := if s.adr = 0 then s.log (Action.LMIC_setDrTxpow s.current_dr 14) else s
  s.log Action.hal_lmic_join

/-- The entry point `lora_join` (lora.c 381-435). -/
def lora_join (cfg : Config) (s0 : Driver) (w : WaitEnv) : Outcome :=
  let s := mtx_lock s0
  if s.setup = 0 then
    Outcome.returned (driver_operation_error LoraErr.NotSetup) (mtx_unlock s)
  else if lora_must_join s = false then
    Outcome.returned (driver_operation_error LoraErr.ABPExpected) (mtx_unlock s)
  else if lora_can_participate_otaa s = false then
    Outcome.returned (driver_operation_error LoraErr.KeysNotConfigured) (mtx_unlock s)
  else if s.joined ≠ 0 then
    Outcome.returned none (mtx_unlock s)
  else
    let s := lora_join_request s
    match xEventGroupWaitBits cfg (evLORA_JOINED ||| evLORA_JOIN_DENIED) w s with
    | Wait.stuck s => Outcome.blocked s
    | Wait.woken uxBits s => Outcome.returned (lora_join_result uxBits) (mtx_unlock s)

/-- Inputs of one `lora_tx` call that come from outside lora.c. -/
structure TxEnv where
  /-- Whether `malloc(payload_len + 1)` succeeds. -/
  malloc_ok : Bool
  /-- The value returned by `_lora_tx` (NULL: the submission is accepted). -/
  tx_error : Result
  wait : WaitEnv
  deriving DecidableEq, Repr

/-- The result of `lora_tx` after the wait returned `uxBits` (lora.c 501-513). -/
def lora_tx_result (uxBits : Nat) : Result :=
  if uxBits &&& evLORA_TX_COMPLETE ≠ 0 then none
  else if uxBits &&& evLORA_ACK_NOT_RECEIVED ≠ 0 then
    driver_operation_error LoraErr.TransmissionFailAckNotReceived
  else driver_operation_error LoraErr.UnexpectedResponse

/-- The assignment `payload_len = strlen(data) / 2` to a `uint8_t` (lora.c 479). -/
def payload_len (data : List Char) : Nat := (strlen data / 2) % 256

/-- The entry point `lora_tx` (lora.c 437-514); the block under `#if 0`
(lines 449-477) is not compiled. -/
def lora_tx (cfg : Config) (s0 : Driver) (cnf port : Int) (data : List Char) (e : TxEnv) :
    Outcome :=
  let s := mtx_lock s0
  if s.setup = 0 then
    Outcome.returned (driver_operation_error LoraErr.NotSetup) (mtx_unlock s)
  else if e.malloc_ok = false then
    Outcome.returned (driver_operation_error LoraErr.NoMem) (mtx_unlock s)
  else
    let payload := hex_string_to_val data (payload_len data)
    let s := s.log (Action._lora_tx cnf port payload (payload_len data))
    match e.tx_error with
    | some err => Outcome.returned (some err) (mtx_unlock s)
    | none =>
      let s := { s with msgid := (s.msgid + 1) % 2 ^ 32 }
      match xEventGroupWaitBits cfg (evLORA_TX_COMPLETE ||| evLORA_ACK_NOT_RECEIVED) e.wait s with
      | Wait.stuck s => Outcome.blocked s
      | Wait.woken uxBits s => Outcome.returned (lora_tx_result uxBits) (mtx_unlock s)

/-- The entry point `lora_set_rx_callback` (lora.c 516-522). -/
def lora_set_rx_callback (s0 : Driver) (callback : Option Nat) : Driver :=
  let s := mtx_lock s0
  let s := { s with lora_rx_callback := callback }
  mtx_unlock s

/-- The function `lora_setup` as it is compiled for the Semtech stack
(CONFIG_LUA_RTOS_LORA_NODE_SEMTECH_STACK set, the LMIC block of lines 316-330
absent, the block of lines 332-336 present). `lora_setup_error` is the value
returned by `_lora_setup()`. -/
def lora_setup_semtech (cfg : Config) (s0 : Driver) (band : Int) (lora_setup_error : Result) :
    Outcome :=
  if cfg.BAND_EU868 = true ∧ band ≠ 868 then
    Outcome.returned (driver_operation_error LoraErr.InvalidBand) s0
  else if cfg.BAND_US915 = true ∧ band ≠ 915 then
    Outcome.returned (driver_operation_error LoraErr.InvalidBand) s0
  else
    let s := mtx_lock s0
    if s.setup = 0 then
      let s :=
        if s.loraEvent_created = false then
          { s with loraEvent_created := true, trace := s.trace ++ [Action.xEventGroupCreate] }
        else s
      let s := s.log Action._lora_setup
      match lora_setup_error with
      | some err => Outcome.returned (some err) s
      | none =>
        let s := { s with setup := 1 }
        Outcome.returned none (mtx_unlock s)
    else
      let s := { s with setup := 1 }
      Outcome.returned none (mtx_unlock s)

/-- The entry point `lora_mac_set` (lora.c 346-364). `mac_error` is the value
returned by `_lora_mac_set`, whose code is not in lora.c. -/
def lora_mac_set (s0 : Driver) (command : Char) (value : List Char) (mac_error : Result) :
    Outcome :=
  let s := mtx_lock s0
  if s.setup = 0 then
    Outcome.returned (driver_operation_error LoraErr.NotSetup) (mtx_unlock s)
  else
    let s := s.log (Action._lora_mac_set command value)
    match mac_error with
    | some err => Outcome.returned (some err) (mtx_unlock s)
    | none => Outcome.returned none (mtx_unlock s)

/-- The entry point `lora_mac_get` (lora.c 366-379). `mac_error` is the value
returned by `_lora_mac_get`, whose code is not in lora.c. -/
def lora_mac_get (s0 : Driver) (command : Char) (mac_error : Result) : Outcome :=
  let s := mtx_lock s0
  let s := s.log (Action._lora_mac_get command)
  match mac_error with
  | some err => Outcome.returned (some err) (mtx_unlock s)
  | none => Outcome.returned none (mtx_unlock s)

/-! ## Runs of the system -/

/-- One step of the system as seen from the driver: an activation of the stack
context while no call is in progress, or one call of an entry point. -/
inductive Call
  | stack (c : StackCall)
  | lora_setup (band : Int) (os_init_error : Result) (w : WaitEnv)
  | lora_join (w : WaitEnv)
  | lora_tx (cnf port : Int) (data : List Char) (e : TxEnv)
  | lora_set_rx_callback (callback : Option Nat)
  deriving DecidableEq, Repr

/-- The state in which a call returned (`none`: it never returns). -/
def Outcome.after : Outcome → Option Driver
  | Outcome.returned _ s => some s
  | Outcome.blocked _ => none

/-- State after one step (`none`: the call never returns). -/
def step (cfg : Config) (s : Driver) : Call → Option Driver
  | Call.stack c => some (stackRun cfg c s)
  | Call.lora_setup band err w => (lora_setup cfg s band err w).after
  | Call.lora_join w => (lora_join cfg s w).after
  | Call.lora_tx cnf port data e => (lora_tx cfg s cnf port data e).after
  | Call.lora_set_rx_callback cb => some (lora_set_rx_callback s cb)

/-- State after a sequence of steps. -/
def run (cfg : Config) : Driver → List Call → Option Driver
  | s, [] => some s
  | s, c :: rest =>
    match step cfg s c with
    | none => none
    | some s1 => run cfg s1 rest

/-- State at boot (the initialisers of lora.c 89-141). The credentials are
provisioned through the MAC-parameter interface, whose code is not in lora.c,
and `msgid` lives in RTC memory that survives deep sleep, so both are free. -/
def boot (appEui devEui appKey : List Nat) (devAddr : Nat) (nwkSKey appSKey : List Nat)
    (msgid : Nat) : Driver :=
  { lora_mtx := false, loraEvent_created := false, loraEvent := 0,
    APPEUI := appEui, DEVEUI := devEui, APPKEY := appKey, joined := 0,
    DEVADDR := devAddr, NWKSKEY := nwkSKey, APPSKEY := appSKey,
    session_init := 0, msgid := msgid, setup := 0, lora_rx_callback := none,
    current_dr := 0, adr := 0, trace := [] }

/-- States the driver can be in between two calls. -/
def Reachable (cfg : Config) (s : Driver) : Prop :=
  ∃ appEui devEui appKey devAddr nwkSKey appSKey msgid calls,
    run cfg (boot appEui devEui appKey devAddr nwkSKey appSKey msgid) calls = some s

/-- The LMIC constants for the EU868 build. -/
def cfgEU868 : Config :=
  { BAND_EU868 := true, BAND_US915 := false, DR_SF7 := 5, DR_SF9 := 3,
    TXRX_ACK := 0x80, TXRX_NACK := 0x40 }

/-! ## Vocabulary of the statements and concrete inputs -/

/-- The first `n` bytes of `k` are all zero. -/
def allZero (k : List Nat) (n : Nat) : Prop := ∀ i, i < n → k.getD i 0 = 0

instance allZero_decidable (k : List Nat) (n : Nat) : Decidable (allZero k n) :=
  Nat.decidableBallLT n (fun i _ => k.getD i 0 = 0)

/-- The driver state in which a wait ended. -/
def Wait.state : Wait → Driver
  | Wait.woken _ s => s
  | Wait.stuck s => s

/-- The variables that only the entry points write: neither `lora_init` nor
`onEvent` assigns them. -/
def StackFrame (s t : Driver) : Prop :=
  t.lora_mtx = s.lora_mtx ∧ t.loraEvent_created = s.loraEvent_created ∧
  t.APPEUI = s.APPEUI ∧ t.DEVEUI = s.DEVEUI ∧ t.APPKEY = s.APPKEY ∧
  t.DEVADDR = s.DEVADDR ∧ t.NWKSKEY = s.NWKSKEY ∧ t.APPSKEY = s.APPSKEY ∧
  t.session_init = s.session_init ∧ t.msgid = s.msgid ∧ t.setup = s.setup ∧
  t.lora_rx_callback = s.lora_rx_callback

/-- The trace of `t` continues the trace of `s`. -/
def TraceExt (s t : Driver) : Prop := ∃ l, t.trace = s.trace ++ l

/-- A `lora_tx` call whose buffer is allocated and whose submission the stack
accepts (`_lora_tx` returns NULL). -/
def isAcceptedTx : Call → Bool
  | Call.lora_tx _ _ _ e => e.malloc_ok && e.tx_error.isNone
  | _ => false

/-- An activation of the stack context between two calls. -/
def isStack : Call → Bool
  | Call.stack _ => true
  | _ => false

/-- The state in which `lora_join` enters its wait: the join has been requested
and the stack has run `w.before_wait`. -/
def joinWaitEntry (cfg : Config) (s : Driver) (w : WaitEnv) : Driver :=
  (stackRunAll cfg w.before_wait (lora_join_request (mtx_lock s))).log
    (Action.xEventGroupWaitBits (evLORA_JOINED ||| evLORA_JOIN_DENIED))

/-- The band is the one of the compiled regional configuration (the two tests
of lora.c 294-304 pass). -/
def bandAccepted (cfg : Config) (band : Int) : Prop :=
  ¬ (cfg.BAND_EU868 = true ∧ band ≠ 868) ∧ ¬ (cfg.BAND_US915 = true ∧ band ≠ 915)

instance bandAccepted_decidable (cfg : Config) (band : Int) : Decidable (bandAccepted cfg band) :=
  instDecidableAnd

/-- The components of the driver state named by the spec are the same in `s`
and `t`: setupDone, joined, sessionInitialized, data rate, ADR flag,
credentials, sequence counter, pending event bits, receive callback. -/
def SameVars (s t : Driver) : Prop :=
  t.setup = s.setup ∧ t.joined = s.joined ∧ t.session_init = s.session_init ∧
  t.current_dr = s.current_dr ∧ t.adr = s.adr ∧
  t.APPEUI = s.APPEUI ∧ t.DEVEUI = s.DEVEUI ∧ t.APPKEY = s.APPKEY ∧
  t.DEVADDR = s.DEVADDR ∧ t.NWKSKEY = s.NWKSKEY ∧ t.APPSKEY = s.APPSKEY ∧
  t.msgid = s.msgid ∧ t.loraEvent = s.loraEvent ∧
  t.lora_rx_callback = s.lora_rx_callback

/-- The state in which `lora_join` starts to wait on its request path. -/
def joinRequested (s : Driver) : Driver :=
  { mtx_lock s with
    msgid := 0
    trace := s.trace ++
      (if s.adr = 0 then [Action.LMIC_setDrTxpow s.current_dr 14] else []) ++
      [Action.hal_lmic_join] }

/-- The state of `lora_setup` after `os_init()` has been called: the mutex is
held and the event group exists. -/
def setupStarted (s : Driver) : Driver :=
  (if s.loraEvent_created = false then
    { mtx_lock s with loraEvent_created := true, trace := s.trace ++ [Action.xEventGroupCreate] }
  else mtx_lock s).log Action.os_init

/-- A sample device EUI / application EUI. -/
def eui8 : List Nat := [1, 2, 3, 4, 5, 6, 7, 8]

/-- A sample 16-byte key. -/
def key16 : List Nat := [1, 2, 3, 4, 5, 6, 7, 8, 9, 10, 11, 12, 13, 14, 15, 16]

/-- A 16-byte key whose first byte only is not zero. -/
def key16_one : List Nat := [1, 0, 0, 0, 0, 0, 0, 0, 0, 0, 0, 0, 0, 0, 0, 0]

/-- An event raised with an idle `LMIC` (no pending confirmation, no data). -/
def idleEvent (ev : ev_t) : StackCall :=
  StackCall.onEvent ev { pendTxConf := 0, txrxFlags := 0, dataLen := 0, dataBeg := 0, frame := [] } true

/-- A wait during which the stack does nothing. -/
def quiet : WaitEnv := { before_wait := [], while_blocked := [] }

/-- The call `lora_setup(868)` with a stack that initialises. -/
def setupOk : Call :=
  Call.lora_setup 868 none { before_wait := [], while_blocked := [StackCall.lora_init] }

/-- A device provisioned for OTAA, at boot, with 7 in the persistent counter. -/
def otaaBoot : Driver := boot eui8 eui8 key16 0 zeros16 zeros16 7

/-- The stack answers a join request with EV_JOINING, then EV_JOINED. -/
def joinEnvOk : WaitEnv :=
  { before_wait := [], while_blocked := [idleEvent ev_t.EV_JOINING, idleEvent ev_t.EV_JOINED] }

/-- The stack answers a join request with EV_JOINING, then EV_JOIN_FAILED. -/
def joinEnvDenied : WaitEnv :=
  { before_wait := [], while_blocked := [idleEvent ev_t.EV_JOINING, idleEvent ev_t.EV_JOIN_FAILED] }

/-- A call of `lora_join` that the network accepts. -/
def joinOk : Call := Call.lora_join joinEnvOk

/-- The stack completes an unconfirmed transmission. -/
def txEnvOk : TxEnv :=
  { malloc_ok := true, tx_error := none,
    wait := { before_wait := [], while_blocked := [idleEvent ev_t.EV_TXCOMPLETE] } }

/-- The hex string 48656c6c6f. -/
def hello : List Char := ['4', '8', '6', '5', '6', 'c', '6', 'c', '6', 'f']

/-- The call `lora_tx(0, 1, "48656c6c6f")`, completed by the stack. -/
def txHello : Call := Call.lora_tx 0 1 hello txEnvOk

/-- The trace of `lora_setup(868)` followed by `lora_init`. -/
def setupTrace : List Action :=
  [Action.xEventGroupCreate, Action.os_init, Action.os_setCallback_lora_init,
   Action.xEventGroupWaitBits 1, Action.LMIC_reset,
   Action.LMIC_setupChannel 0 868100000, Action.LMIC_setupChannel 1 868300000,
   Action.LMIC_setupChannel 2 868500000, Action.LMIC_setupChannel 3 867100000,
   Action.LMIC_setupChannel 4 867300000, Action.LMIC_setupChannel 5 867500000,
   Action.LMIC_setupChannel 6 867700000, Action.LMIC_setupChannel 7 867900000,
   Action.LMIC_setupChannel 8 868800000, Action.LMIC_setLinkCheckMode 0,
   Action.LMIC_setAdrMode 0, Action.LMIC_dn2Dr 3, Action.LMIC_setDrTxpow 5 14,
   Action.xEventGroupSetBits 1]

/-- The OTAA device after `lora_setup(868)`. -/
def afterSetup : Driver :=
  { otaaBoot with loraEvent_created := true, setup := 1, current_dr := 5, trace := setupTrace }

/-- The trace of an accepted join request. -/
def joinTrace : List Action :=
  [Action.LMIC_setDrTxpow 5 14, Action.hal_lmic_join, Action.xEventGroupWaitBits 6,
   Action.xEventGroupSetBits 2, Action.LMIC_dn2Dr 3]

/-- The OTAA device after `lora_setup(868)` and an accepted `lora_join()`. -/
def afterJoin : Driver :=
  { afterSetup with joined := 1, msgid := 0, trace := setupTrace ++ joinTrace }

/-- The OTAA device after set-up, join and one completed transmission. -/
def joinedAfterTx : Driver :=
  { afterJoin with
    msgid := 1
    trace := setupTrace ++ joinTrace ++
      [Action._lora_tx 0 1 [72, 101, 108, 108, 111] 5,
       Action.xEventGroupWaitBits 24, Action.xEventGroupSetBits 8] }

/-- The OTAA device after `lora_setup(868)` and a denied `lora_join()`. -/
def afterDenied : Driver :=
  { afterSetup with
    msgid := 0
    trace := setupTrace ++
      [Action.LMIC_setDrTxpow 5 14, Action.hal_lmic_join, Action.xEventGroupWaitBits 6,
       Action.xEventGroupSetBits 4] }

/-- The stack reports a confirmed transmission that was not acknowledged. -/
def txEnvNack : TxEnv :=
  { malloc_ok := true, tx_error := none,
    wait := { before_wait := [],
              while_blocked := [StackCall.onEvent ev_t.EV_TXCOMPLETE
                { pendTxConf := 1, txrxFlags := 0x40, dataLen := 0, dataBeg := 0, frame := [] }
                true] } }

/-- The call `lora_tx(1, 1, "48656c6c6f")`, not acknowledged. -/
def txHelloNack : Call := Call.lora_tx 1 1 hello txEnvNack

/-- The OTAA device after set-up, join, and two transmissions, the second one
confirmed and not acknowledged. -/
def afterTwoTx : Driver :=
  { joinedAfterTx with
    msgid := 2
    trace := joinedAfterTx.trace ++
      [Action._lora_tx 1 1 [72, 101, 108, 108, 111] 5,
       Action.xEventGroupWaitBits 24, Action.xEventGroupSetBits 16] }

/-- A set-up driver without any credential, not joined. -/
def bareSetup : Driver :=
  { afterSetup with APPEUI := zeros8, DEVEUI := zeros8, APPKEY := zeros16 }

/-- The driver without credentials after one transmission. -/
def bareAfterTx : Driver :=
  { bareSetup with
    msgid := 8
    trace := setupTrace ++
      [Action._lora_tx 0 1 [72, 101, 108, 108, 111] 5,
       Action.xEventGroupWaitBits 24, Action.xEventGroupSetBits 8] }

/-- A hex string of 512 characters. -/
def longHex : List Char := List.replicate 512 '0'

/-- The joined device after `lora_tx` of the 512-character string. -/
def afterLongTx : Driver :=
  { afterJoin with
    msgid := 1
    trace := setupTrace ++ joinTrace ++
      [Action._lora_tx 0 1 [] 0,
       Action.xEventGroupWaitBits 24, Action.xEventGroupSetBits 8] }

/-- A run that leaves a stale JOINED bit: set-up, a join that the network
denies, then, with no call in progress, the stack (which keeps retrying) reports
EV_JOINED and, later, EV_REJOIN_FAILED. -/
def staleCalls : List Call :=
  [setupOk, Call.lora_join joinEnvDenied, Call.stack (idleEvent ev_t.EV_JOINED),
   Call.stack (idleEvent ev_t.EV_REJOIN_FAILED)]

/-- The state after `staleCalls`: not joined, JOINED bit pending. -/
def staleJoined : Driver :=
  { afterDenied with
    loraEvent := 2
    trace := afterDenied.trace ++ [Action.xEventGroupSetBits 2, Action.LMIC_dn2Dr 3] }

/-- The state after a first `lora_join()` from `staleJoined`. -/
def staleFirst : Driver :=
  { staleJoined with
    loraEvent := 0
    trace := staleJoined.trace ++
      [Action.LMIC_setDrTxpow 5 14, Action.hal_lmic_join, Action.xEventGroupWaitBits 6] }

/-- The state in which a second `lora_join()` from `staleFirst` is blocked. -/
def staleSecond : Driver :=
  { staleFirst with
    lora_mtx := true
    trace := staleFirst.trace ++
      [Action.LMIC_setDrTxpow 5 14, Action.hal_lmic_join, Action.xEventGroupWaitBits 6] }

/-- A set-up driver with `DEVADDR != 0`, a session key `APPSKEY` and no `NWKSKEY`. -/
def abpNoNwkSKey : Driver :=
  { afterSetup with DEVADDR := 1, APPSKEY := key16_one }

/-- A set-up driver with `DEVADDR == 0` and a session key `APPSKEY`. -/
def noAddrAppSKey : Driver :=
  { afterSetup with APPSKEY := key16_one }

/-- A set-up driver with the joined flag set and no `APPEUI`, no `DEVEUI`. -/
def joinedNoEui : Driver :=
  { afterSetup with APPEUI := zeros8, DEVEUI := zeros8, joined := 1 }

/-- The joined device with a receive callback registered. -/
def withCallback : Driver := { afterJoin with lora_rx_callback := some 42 }

/-- The stack has received two bytes of downlink data, AB CD, after an
unconfirmed uplink. -/
def downlinkUnconf : lmic_t :=
  { pendTxConf := 0, txrxFlags := 0, dataLen := 2, dataBeg := 1, frame := [96, 171, 205] }

/-- The stack has received the same downlink data with the acknowledgement of
a confirmed uplink. -/
def downlinkConf : lmic_t :=
  { pendTxConf := 1, txrxFlags := 0x80, dataLen := 2, dataBeg := 1, frame := [96, 171, 205] }

/-- The device at boot after a failed `lora_setup(868)` of the Semtech build. -/
def semtechFailed : Driver :=
  { otaaBoot with
    lora_mtx := true
    loraEvent_created := true
    trace := [Action.xEventGroupCreate, Action._lora_setup] }

/-- The device at boot after a `lora_setup(868)` whose `os_init()` failed. -/
def setupFailed : Driver :=
  { otaaBoot with
    loraEvent_created := true
    trace := [Action.xEventGroupCreate, Action.os_init] }

/-- The stack reports a confirmed transmission with both the ACK and the NACK
flag in `txrxFlags`. -/
def txEnvAckNack : TxEnv :=
  { malloc_ok := true, tx_error := none,
    wait := { before_wait := [],
              while_blocked := [StackCall.onEvent ev_t.EV_TXCOMPLETE
                { pendTxConf := 1, txrxFlags := 0xC0, dataLen := 0, dataBeg := 0, frame := [] }
                true] } }

/-- The joined device after a second, confirmed transmission reported with
both flags: the caller was woken inside the first `xEventGroupSetBits`, the
second one left ACK_NOT_RECEIVED pending. -/
def afterAckNack : Driver :=
  { joinedAfterTx with
    msgid := 2
    loraEvent := 16
    trace := joinedAfterTx.trace ++
      [Action._lora_tx 1 1 [72, 101, 108, 108, 111] 5, Action.xEventGroupWaitBits 24,
       Action.xEventGroupSetBits 8, Action.xEventGroupSetBits 16] }

theorem headD_eq_getD (l : List Nat) : l.headD 0 = l.getD 0 0 := by
  cases l <;> rfl

theorem tail_getD (l : List Nat) (i : Nat) : l.tail.getD i 0 = l.getD (i + 1) 0 := by
  cases l <;> simp

/-- Comparing with a zero buffer: `memcmp` is 0 exactly on an all-zero prefix. -/
theorem memcmp_zero_iff (n : Nat) : ∀ (a z : List Nat), (∀ i, z.getD i 0 = 0) →
    (memcmp a z n = 0 ↔ allZero a n) := by
  induction n with
  | zero => intro a z _; simp [memcmp, allZero]
  | succ n ih =>
    intro a z hz
    have hz0 : z.headD 0 = 0 := by rw [headD_eq_getD]; exact hz 0
    have hzt : ∀ i, z.tail.getD i 0 = 0 := fun i => by rw [tail_getD]; exact hz _
    rw [memcmp, hz0]
    by_cases h : a.headD 0 = 0
    · rw [if_pos h, ih a.tail z.tail hzt]
      constructor
      · intro ha i hi
        cases i with
        | zero => rw [← headD_eq_getD]; exact h
        | succ j => rw [← tail_getD]; exact ha j (by omega)
      · intro ha i hi
        rw [tail_getD]; exact ha _ (by omega)
    · rw [if_neg h]
      constructor
      · intro hh; exfalso; apply h; omega
      · intro ha; exfalso; apply h; rw [headD_eq_getD]; exact ha 0 (by omega)

theorem replicate_zero_getD (m : Nat) : ∀ i, (List.replicate m 0).getD i 0 = 0 := by
  induction m with
  | zero => intro i; rfl
  | succ m ih =>
    intro i
    cases i with
    | zero => rfl
    | succ j => exact ih j

theorem zeros8_getD (i : Nat) : zeros8.getD i 0 = 0 :=
  replicate_zero_getD 8 i

theorem zeros16_getD (i : Nat) : zeros16.getD i 0 = 0 :=
  replicate_zero_getD 16 i

/-- What `lora_must_join()` computes. -/
theorem lora_must_join_iff (s : Driver) :
    lora_must_join s = true ↔ s.DEVADDR = 0 ∧ allZero s.APPSKEY 16 := by
  simp [lora_must_join, memcmp_zero_iff 16 s.APPSKEY zeros16 zeros16_getD]

/-- What `lora_can_participate_otaa()` computes. -/
theorem lora_can_participate_otaa_iff (s : Driver) :
    lora_can_participate_otaa s = true ↔
      ¬ allZero s.APPEUI 8 ∧ ¬ allZero s.DEVEUI 8 ∧ ¬ allZero s.APPKEY 16 := by
  simp [lora_can_participate_otaa, memcmp_zero_iff 8 s.APPEUI zeros8 zeros8_getD,
    memcmp_zero_iff 8 s.DEVEUI zeros8 zeros8_getD,
    memcmp_zero_iff 16 s.APPKEY zeros16 zeros16_getD, and_assoc]

/-- What `lora_can_participate_abp()` computes. -/
theorem lora_can_participate_abp_iff (s : Driver) :
    lora_can_participate_abp s = true ↔ s.DEVADDR ≠ 0 ∧ ¬ allZero s.APPSKEY 16 := by
  simp [lora_can_participate_abp, memcmp_zero_iff 16 s.APPSKEY zeros16 zeros16_getD]

/-! ## What the stack context leaves alone -/

theorem stackFrame_refl (s : Driver) : StackFrame s s := by
  simp [StackFrame]

theorem stackFrame_trans {a b c : Driver} (h1 : StackFrame a b) (h2 : StackFrame b c) :
    StackFrame a c := by
  obtain ⟨a1, a2, a3, a4, a5, a6, a7, a8, a9, a10, a11, a12⟩ := h1
  obtain ⟨b1, b2, b3, b4, b5, b6, b7, b8, b9, b10, b11, b12⟩ := h2
  exact ⟨b1.trans a1, b2.trans a2, b3.trans a3, b4.trans a4, b5.trans a5, b6.trans a6,
    b7.trans a7, b8.trans a8, b9.trans a9, b10.trans a10, b11.trans a11, b12.trans a12⟩

theorem log_frame (s : Driver) (a : Action) : StackFrame s (s.log a) := by
  simp [StackFrame, Driver.log]

theorem setBits_frame (s : Driver) (b : Nat) : StackFrame s (xEventGroupSetBits s b) := by
  simp [StackFrame, xEventGroupSetBits]

theorem lora_init_frame (cfg : Config) (s : Driver) : StackFrame s (lora_init cfg s) := by
  unfold lora_init
  cases cfg.BAND_EU868 <;> cases cfg.BAND_US915 <;>
    simp [StackFrame, xEventGroupSetBits, Driver.log]

theorem onEvent_txcomplete_frame (cfg : Config) (LMIC : lmic_t) (m : Bool) (s : Driver) :
    StackFrame s (onEvent_txcomplete cfg LMIC m s) := by
  unfold onEvent_txcomplete
  cases hcb : s.lora_rx_callback <;>
    (split_ifs <;> simp [StackFrame, xEventGroupSetBits, Driver.log, hcb])

theorem onEvent_frame (cfg : Config) (LMIC : lmic_t) (m : Bool) (ev : ev_t) (s : Driver) :
    StackFrame s (onEvent cfg LMIC m ev s) := by
  cases ev <;>
    first
    | exact onEvent_txcomplete_frame cfg LMIC m s
    | simp [onEvent, StackFrame, xEventGroupSetBits, Driver.log]

theorem stackRun_frame (cfg : Config) (c : StackCall) (s : Driver) :
    StackFrame s (stackRun cfg c s) := by
  cases c with
  | lora_init => exact lora_init_frame cfg s
  | onEvent ev LMIC m => exact onEvent_frame cfg LMIC m ev s

theorem stackRunAll_frame (cfg : Config) (l : List StackCall) :
    ∀ s, StackFrame s (stackRunAll cfg l s) := by
  induction l with
  | nil => intro s; exact stackFrame_refl s
  | cons c rest ih =>
    intro s
    exact stackFrame_trans (stackRun_frame cfg c s) (ih _)

theorem blockOn_frame (cfg : Config) (bits : Nat) (l : List StackCall) :
    ∀ s, StackFrame s (blockOn cfg bits l s).state := by
  induction l with
  | nil =>
    intro s
    unfold blockOn
    split_ifs <;> simp [Wait.state, StackFrame]
  | cons c rest ih =>
    intro s
    unfold blockOn
    split_ifs
    · simp [Wait.state, StackFrame]
    · split
      · exact stackRun_frame cfg c s
      · exact stackFrame_trans (stackRun_frame cfg c s) (ih _)

/-- A wait changes none of the variables owned by the entry points. -/
theorem wait_frame (cfg : Config) (bits : Nat) (w : WaitEnv) (s : Driver) :
    StackFrame s (xEventGroupWaitBits cfg bits w s).state := by
  unfold xEventGroupWaitBits
  exact stackFrame_trans (stackFrame_trans (stackRunAll_frame cfg _ s) (log_frame _ _))
    (blockOn_frame cfg bits _ _)

theorem wait_frame_woken {cfg : Config} {bits : Nat} {w : WaitEnv} {s t : Driver} {ux : Nat}
    (h : xEventGroupWaitBits cfg bits w s = Wait.woken ux t) : StackFrame s t := by
  have := wait_frame cfg bits w s
  rw [h] at this
  exact this

theorem lora_join_result_cases (ux : Nat) :
    lora_join_result ux = none ∨
    lora_join_result ux = driver_operation_error LoraErr.NotJoined ∨
    lora_join_result ux = driver_operation_error LoraErr.UnexpectedResponse := by
  unfold lora_join_result
  split_ifs <;> simp

/-! ## The paths through `lora_join` -/

theorem mtx_unlock_lock (s : Driver) : mtx_unlock (mtx_lock s) = { s with lora_mtx := false } := rfl

theorem lora_join_request_msgid (s : Driver) : (lora_join_request s).msgid = 0 := by
  simp only [lora_join_request]
  split_ifs <;> simp [Driver.log]

theorem lora_join_not_setup (cfg : Config) (s : Driver) (w : WaitEnv) (h1 : s.setup = 0) :
    lora_join cfg s w =
      Outcome.returned (driver_operation_error LoraErr.NotSetup) (mtx_unlock (mtx_lock s)) := by
  have e1 : (mtx_lock s).setup = 0 := h1
  simp [lora_join, e1]

theorem lora_join_abp (cfg : Config) (s : Driver) (w : WaitEnv) (h1 : s.setup ≠ 0)
    (h2 : lora_must_join s = false) :
    lora_join cfg s w =
      Outcome.returned (driver_operation_error LoraErr.ABPExpected) (mtx_unlock (mtx_lock s)) := by
  have e1 : (mtx_lock s).setup ≠ 0 := h1
  have e2 : lora_must_join (mtx_lock s) = false := h2
  simp [lora_join, e1, e2]

theorem lora_join_keys (cfg : Config) (s : Driver) (w : WaitEnv) (h1 : s.setup ≠ 0)
    (h2 : lora_must_join s = true) (h3 : lora_can_participate_otaa s = false) :
    lora_join cfg s w =
      Outcome.returned (driver_operation_error LoraErr.KeysNotConfigured)
        (mtx_unlock (mtx_lock s)) := by
  have e1 : (mtx_lock s).setup ≠ 0 := h1
  have e2 : lora_must_join (mtx_lock s) = true := h2
  have e3 : lora_can_participate_otaa (mtx_lock s) = false := h3
  simp [lora_join, e1, e2, e3]

theorem lora_join_joined (cfg : Config) (s : Driver) (w : WaitEnv) (h1 : s.setup ≠ 0)
    (h2 : lora_must_join s = true) (h3 : lora_can_participate_otaa s = true)
    (h4 : s.joined ≠ 0) :
    lora_join cfg s w = Outcome.returned none (mtx_unlock (mtx_lock s)) := by
  have e1 : (mtx_lock s).setup ≠ 0 := h1
  have e2 : lora_must_join (mtx_lock s) = true := h2
  have e3 : lora_can_participate_otaa (mtx_lock s) = true := h3
  have e4 : (mtx_lock s).joined ≠ 0 := h4
  simp [lora_join, e1, e2, e3, e4]

theorem lora_join_path (cfg : Config) (s : Driver) (w : WaitEnv) (h1 : s.setup ≠ 0)
    (h2 : lora_must_join s = true) (h3 : lora_can_participate_otaa s = true)
    (h4 : s.joined = 0) :
    lora_join cfg s w =
      match xEventGroupWaitBits cfg (evLORA_JOINED ||| evLORA_JOIN_DENIED) w
          (lora_join_request (mtx_lock s)) with
      | Wait.stuck t => Outcome.blocked t
      | Wait.woken uxBits t => Outcome.returned (lora_join_result uxBits) (mtx_unlock t) := by
  have e1 : (mtx_lock s).setup ≠ 0 := h1
  have e2 : lora_must_join (mtx_lock s) = true := h2
  have e3 : lora_can_participate_otaa (mtx_lock s) = true := h3
  have e4 : (mtx_lock s).joined = 0 := h4
  simp [lora_join, e1, e2, e3, e4]

/-- Every way `lora_join` can return, with the state it returns in. -/
theorem lora_join_returned (cfg : Config) (s : Driver) (w : WaitEnv) (r : Result) (s1 : Driver)
    (h : lora_join cfg s w = Outcome.returned r s1) :
    (s.setup = 0 ∧ r = driver_operation_error LoraErr.NotSetup ∧
      s1 = mtx_unlock (mtx_lock s)) ∨
    (s.setup ≠ 0 ∧ lora_must_join s = false ∧
      r = driver_operation_error LoraErr.ABPExpected ∧ s1 = mtx_unlock (mtx_lock s)) ∨
    (s.setup ≠ 0 ∧ lora_must_join s = true ∧ lora_can_participate_otaa s = false ∧
      r = driver_operation_error LoraErr.KeysNotConfigured ∧ s1 = mtx_unlock (mtx_lock s)) ∨
    (s.setup ≠ 0 ∧ lora_must_join s = true ∧ lora_can_participate_otaa s = true ∧
      s.joined ≠ 0 ∧ r = none ∧ s1 = mtx_unlock (mtx_lock s)) ∨
    (s.setup ≠ 0 ∧ lora_must_join s = true ∧ lora_can_participate_otaa s = true ∧
      s.joined = 0 ∧ ∃ ux t,
        xEventGroupWaitBits cfg (evLORA_JOINED ||| evLORA_JOIN_DENIED) w
          (lora_join_request (mtx_lock s)) = Wait.woken ux t ∧
        r = lora_join_result ux ∧ s1 = mtx_unlock t) := by
  by_cases h1 : s.setup = 0
  · rw [lora_join_not_setup cfg s w h1] at h
    simp only [Outcome.returned.injEq] at h
    exact Or.inl ⟨h1, h.1.symm, h.2.symm⟩
  by_cases h2 : lora_must_join s = false
  · rw [lora_join_abp cfg s w h1 h2] at h
    simp only [Outcome.returned.injEq] at h
    exact Or.inr (Or.inl ⟨h1, h2, h.1.symm, h.2.symm⟩)
  have h2t : lora_must_join s = true := by simpa using h2
  by_cases h3 : lora_can_participate_otaa s = false
  · rw [lora_join_keys cfg s w h1 h2t h3] at h
    simp only [Outcome.returned.injEq] at h
    exact Or.inr (Or.inr (Or.inl ⟨h1, h2t, h3, h.1.symm, h.2.symm⟩))
  have h3t : lora_can_participate_otaa s = true := by simpa using h3
  by_cases h4 : s.joined = 0
  · rw [lora_join_path cfg s w h1 h2t h3t h4] at h
    refine Or.inr (Or.inr (Or.inr (Or.inr ⟨h1, h2t, h3t, h4, ?_⟩)))
    split at h
    · simp at h
    · rename_i ux t hw
      simp only [Outcome.returned.injEq] at h
      exact ⟨ux, t, hw, h.1.symm, h.2.symm⟩
  · rw [lora_join_joined cfg s w h1 h2t h3t h4] at h
    simp only [Outcome.returned.injEq] at h
    exact Or.inr (Or.inr (Or.inr (Or.inl ⟨h1, h2t, h3t, h4, h.1.symm, h.2.symm⟩)))

/-- The counter when a join request has been answered. -/
theorem join_woken_msgid {cfg : Config} {w : WaitEnv} {s t : Driver} {ux : Nat}
    (hw : xEventGroupWaitBits cfg (evLORA_JOINED ||| evLORA_JOIN_DENIED) w
      (lora_join_request (mtx_lock s)) = Wait.woken ux t) :
    (mtx_unlock t).msgid = 0 := by
  have hf := wait_frame_woken hw
  have hm : t.msgid = (lora_join_request (mtx_lock s)).msgid := hf.2.2.2.2.2.2.2.2.2.1
  rw [lora_join_request_msgid] at hm
  exact hm

/-! ## C1 -/

/-- C1 (as stated) fails: a device that set up, joined and completed one
transmission calls `join()` again; the call returns success with the counter at
1, not 0. -/
theorem C1_counterexample :
    run cfgEU868 otaaBoot [setupOk, joinOk, txHello] = some joinedAfterTx ∧
    lora_join cfgEU868 joinedAfterTx quiet = Outcome.returned none joinedAfterTx ∧
    joinedAfterTx.msgid = 1 := by
  decide

/-- C1 (amended): whenever `join()` returns success after issuing a join
request (the joined flag was clear when the call tested it) the sequence counter
is 0 on return; a `join()` that returns success because the device was already
joined leaves the counter as it was. -/
theorem C1_join_success_counter (cfg : Config) (s : Driver) (w : WaitEnv) (s1 : Driver)
    (h : lora_join cfg s w = Outcome.returned none s1) :
    (s.joined = 0 → s1.msgid = 0) ∧ (s.joined ≠ 0 → s1.msgid = s.msgid) := by
  rcases lora_join_returned cfg s w none s1 h with
    ⟨_, hr, _⟩ | ⟨_, _, hr, _⟩ | ⟨_, _, _, hr, _⟩ | ⟨_, _, _, h4, _, hs⟩ |
    ⟨_, _, _, h4, ux, t, hw, _, hs⟩
  · simp [driver_operation_error] at hr
  · simp [driver_operation_error] at hr
  · simp [driver_operation_error] at hr
  · subst hs
    exact ⟨fun h0 => absurd h0 h4, fun _ => rfl⟩
  · subst hs
    exact ⟨fun _ => join_woken_msgid hw, fun hne => absurd h4 hne⟩

/-- C1 (amended), at concrete inputs: a fresh join request answered by
EV_JOINED returns success with the counter reset from 7 to 0. -/
theorem C1_witness :
    lora_join cfgEU868 afterSetup joinEnvOk = Outcome.returned none afterJoin ∧
    ((afterSetup.joined = 0 → afterJoin.msgid = 0) ∧
     (afterSetup.joined ≠ 0 → afterJoin.msgid = afterSetup.msgid)) :=
  ⟨by decide, C1_join_success_counter cfgEU868 afterSetup joinEnvOk afterJoin (by decide)⟩

/-! ## C3 -/

/-- C3 (as stated) fails: the set-up device, with 7 in the counter, calls
`join()`; the network denies the join; the call returns NotJoined with the
counter at 0. -/
theorem C3_counterexample :
    run cfgEU868 otaaBoot [setupOk] = some afterSetup ∧ afterSetup.msgid = 7 ∧
    lora_join cfgEU868 afterSetup joinEnvDenied =
      Outcome.returned (driver_operation_error LoraErr.NotJoined) afterDenied ∧
    afterDenied.msgid = 0 := by
  decide

/-- C3 (amended): a `join()` that returns NotSetup, ABPExpected or
KeysNotConfigured leaves the sequence counter as it was before the call; a
`join()` that returns NotJoined or UnexpectedResponse has reset the counter
with its join request and returns with the counter at 0; `join()` returns no
other error. -/
theorem C3_join_failure_counter (cfg : Config) (s : Driver) (w : WaitEnv)
    (e : driver_error_t) (s1 : Driver)
    (h : lora_join cfg s w = Outcome.returned (some e) s1) :
    ((e = driver_error_t.lora LoraErr.NotSetup ∨ e = driver_error_t.lora LoraErr.ABPExpected ∨
        e = driver_error_t.lora LoraErr.KeysNotConfigured) ∧ s1.msgid = s.msgid) ∨
    ((e = driver_error_t.lora LoraErr.NotJoined ∨
        e = driver_error_t.lora LoraErr.UnexpectedResponse) ∧ s1.msgid = 0) := by
  rcases lora_join_returned cfg s w (some e) s1 h with
    ⟨_, hr, hs⟩ | ⟨_, _, hr, hs⟩ | ⟨_, _, _, hr, hs⟩ | ⟨_, _, _, _, hr, _⟩ |
    ⟨_, _, _, _, ux, t, hw, hr, hs⟩
  · simp only [driver_operation_error, Option.some.injEq] at hr
    subst hs
    exact Or.inl ⟨Or.inl hr, rfl⟩
  · simp only [driver_operation_error, Option.some.injEq] at hr
    subst hs
    exact Or.inl ⟨Or.inr (Or.inl hr), rfl⟩
  · simp only [driver_operation_error, Option.some.injEq] at hr
    subst hs
    exact Or.inl ⟨Or.inr (Or.inr hr), rfl⟩
  · simp at hr
  · subst hs
    refine Or.inr ⟨?_, join_woken_msgid hw⟩
    rcases lora_join_result_cases ux with h0 | h0 | h0
    · rw [h0] at hr; simp at hr
    · rw [h0] at hr
      simp only [driver_operation_error, Option.some.injEq] at hr
      exact Or.inl hr
    · rw [h0] at hr
      simp only [driver_operation_error, Option.some.injEq] at hr
      exact Or.inr hr

/-- C3 (amended), at concrete inputs: the denied join of the set-up device. -/
theorem C3_witness :
    lora_join cfgEU868 afterSetup joinEnvDenied =
      Outcome.returned (some (driver_error_t.lora LoraErr.NotJoined)) afterDenied ∧
    (((driver_error_t.lora LoraErr.NotJoined = driver_error_t.lora LoraErr.NotSetup ∨
        driver_error_t.lora LoraErr.NotJoined = driver_error_t.lora LoraErr.ABPExpected ∨
        driver_error_t.lora LoraErr.NotJoined = driver_error_t.lora LoraErr.KeysNotConfigured) ∧
        afterDenied.msgid = afterSetup.msgid) ∨
     ((driver_error_t.lora LoraErr.NotJoined = driver_error_t.lora LoraErr.NotJoined ∨
        driver_error_t.lora LoraErr.NotJoined = driver_error_t.lora LoraErr.UnexpectedResponse) ∧
        afterDenied.msgid = 0)) :=
  ⟨by decide,
   C3_join_failure_counter cfgEU868 afterSetup joinEnvDenied
     (driver_error_t.lora LoraErr.NotJoined) afterDenied (by decide)⟩

/-! ## C4 -/

/-- C4: on a set-up driver with `DEVADDR != 0`, `join()` returns ABPExpected,
whatever the OTAA credentials, the session keys and the joined flag hold; only
the mutex is touched, so no join request (no call at all) reaches the stack. -/
theorem C4_join_abp_expected (cfg : Config) (s : Driver) (w : WaitEnv)
    (hsetup : s.setup ≠ 0) (haddr : s.DEVADDR ≠ 0) :
    lora_join cfg s w =
      Outcome.returned (driver_operation_error LoraErr.ABPExpected)
        { s with lora_mtx := false } ∧
    (lora_join cfg s w).state.trace = s.trace ∧
    Action.hal_lmic_join ∉ ((lora_join cfg s w).state.trace.drop s.trace.length) := by
  have hm : lora_must_join s = false := by
    cases hb : lora_must_join s
    · rfl
    · exact absurd ((lora_must_join_iff s).1 hb).1 haddr
  rw [lora_join_abp cfg s w hsetup hm, mtx_unlock_lock]
  simp [Outcome.state]

/-- C4 at concrete inputs: a set-up device with `DEVADDR = 1`. -/
theorem C4_witness :
    abpNoNwkSKey.setup ≠ 0 ∧ abpNoNwkSKey.DEVADDR ≠ 0 ∧
    (lora_join cfgEU868 abpNoNwkSKey joinEnvOk =
      Outcome.returned (driver_operation_error LoraErr.ABPExpected)
        { abpNoNwkSKey with lora_mtx := false } ∧
    (lora_join cfgEU868 abpNoNwkSKey joinEnvOk).state.trace = abpNoNwkSKey.trace ∧
    Action.hal_lmic_join ∉
      ((lora_join cfgEU868 abpNoNwkSKey joinEnvOk).state.trace.drop abpNoNwkSKey.trace.length)) :=
  ⟨by decide, by decide,
   C4_join_abp_expected cfgEU868 abpNoNwkSKey joinEnvOk (by decide) (by decide)⟩

/-! ## C5 -/

/-- C5: on a set-up driver for which `lora_must_join()` holds, `join()` returns
KeysNotConfigured if and only if at least one of `APPEUI`, `DEVEUI`, `APPKEY` is
all-zero; in particular it does when `APPEUI` and `DEVEUI` are all-zero,
whatever the joined flag holds. -/
theorem C5_join_keys_not_configured (cfg : Config) (s : Driver) (w : WaitEnv)
    (hsetup : s.setup ≠ 0) (hmust : lora_must_join s = true) :
    ((∃ s1, lora_join cfg s w =
        Outcome.returned (driver_operation_error LoraErr.KeysNotConfigured) s1) ↔
      (allZero s.APPEUI 8 ∨ allZero s.DEVEUI 8 ∨ allZero s.APPKEY 16)) ∧
    (allZero s.APPEUI 8 → allZero s.DEVEUI 8 →
      lora_join cfg s w =
        Outcome.returned (driver_operation_error LoraErr.KeysNotConfigured)
          { s with lora_mtx := false }) := by
  have hkey : lora_can_participate_otaa s = false ↔
      (allZero s.APPEUI 8 ∨ allZero s.DEVEUI 8 ∨ allZero s.APPKEY 16) := by
    rw [← Bool.not_eq_true, lora_can_participate_otaa_iff]
    tauto
  refine ⟨⟨?_, ?_⟩, ?_⟩
  · rintro ⟨s1, h⟩
    rcases lora_join_returned cfg s w _ s1 h with
      ⟨h0, _⟩ | ⟨_, h0, _⟩ | ⟨_, _, h3, _⟩ | ⟨_, _, _, _, hr, _⟩ | ⟨_, _, _, _, ux, t, _, hr, _⟩
    · exact absurd h0 hsetup
    · rw [hmust] at h0; simp at h0
    · exact hkey.1 h3
    · simp [driver_operation_error] at hr
    · rcases lora_join_result_cases ux with h0 | h0 | h0 <;>
        (rw [h0] at hr; simp [driver_operation_error] at hr)
  · intro hz
    exact ⟨_, lora_join_keys cfg s w hsetup hmust (hkey.2 hz)⟩
  · intro ha _
    rw [lora_join_keys cfg s w hsetup hmust (hkey.2 (Or.inl ha)), mtx_unlock_lock]

/-- C5 at concrete inputs: a set-up device with the joined flag set and neither
`APPEUI` nor `DEVEUI`. -/
theorem C5_witness :
    joinedNoEui.setup ≠ 0 ∧ lora_must_join joinedNoEui = true ∧ joinedNoEui.joined ≠ 0 ∧
    (((∃ s1, lora_join cfgEU868 joinedNoEui quiet =
        Outcome.returned (driver_operation_error LoraErr.KeysNotConfigured) s1) ↔
      (allZero joinedNoEui.APPEUI 8 ∨ allZero joinedNoEui.DEVEUI 8 ∨
        allZero joinedNoEui.APPKEY 16)) ∧
    (allZero joinedNoEui.APPEUI 8 → allZero joinedNoEui.DEVEUI 8 →
      lora_join cfgEU868 joinedNoEui quiet =
        Outcome.returned (driver_operation_error LoraErr.KeysNotConfigured)
          { joinedNoEui with lora_mtx := false })) :=
  ⟨by decide, by decide, by decide,
   C5_join_keys_not_configured cfgEU868 joinedNoEui quiet (by decide) (by decide)⟩

/-! ## C7 -/

/-- C7, the code at the failing input: with `DEVADDR = 1`, `APPSKEY` set and
`NWKSKEY` all-zero, `lora_can_participate_abp()` is true although the network
session key is missing. -/
theorem C7_abp_ignores_nwkskey :
    abpNoNwkSKey.DEVADDR ≠ 0 ∧ allZero abpNoNwkSKey.NWKSKEY 16 ∧
    ¬ allZero abpNoNwkSKey.APPSKEY 16 ∧
    lora_can_participate_abp abpNoNwkSKey = true ∧
    ¬ (lora_can_participate_abp abpNoNwkSKey = true ↔
        (abpNoNwkSKey.DEVADDR ≠ 0 ∧ ¬ allZero abpNoNwkSKey.NWKSKEY 16 ∧
          ¬ allZero abpNoNwkSKey.APPSKEY 16)) := by
  decide

/-! ## C8 -/

/-- C8 (as stated) fails: with `DEVADDR == 0` and a non-zero `APPSKEY`,
`lora_must_join()` is false and `join()` on the set-up driver returns
ABPExpected. -/
theorem C8_counterexample :
    noAddrAppSKey.DEVADDR = 0 ∧ lora_must_join noAddrAppSKey = false ∧
    noAddrAppSKey.setup ≠ 0 ∧
    lora_join cfgEU868 noAddrAppSKey joinEnvOk =
      Outcome.returned (driver_operation_error LoraErr.ABPExpected) noAddrAppSKey := by
  decide

/-- C8 (amended): for every credential set with `DEVADDR == 0` and all-zero
session keys, `lora_must_join()` is true; consequently `join()` on a set-up
driver with such credentials never returns ABPExpected. (The predicate reads
`APPSKEY` twice and `NWKSKEY` never, so the proof has no use for the hypothesis
on `NWKSKEY`; what the predicate answers when only `NWKSKEY` is set is left out
of the statement.) -/
theorem C8_must_join_without_session (cfg : Config) (s : Driver) (w : WaitEnv)
    (haddr : s.DEVADDR = 0) (_hnwk : allZero s.NWKSKEY 16) (happ : allZero s.APPSKEY 16) :
    lora_must_join s = true ∧
    (s.setup ≠ 0 → ∀ s1, lora_join cfg s w ≠
      Outcome.returned (driver_operation_error LoraErr.ABPExpected) s1) := by
  have hm : lora_must_join s = true := (lora_must_join_iff s).2 ⟨haddr, happ⟩
  refine ⟨hm, fun hsetup s1 h => ?_⟩
  rcases lora_join_returned cfg s w _ s1 h with
    ⟨h0, _⟩ | ⟨_, h0, _⟩ | ⟨_, _, _, hr, _⟩ | ⟨_, _, _, _, hr, _⟩ | ⟨_, _, _, _, ux, t, _, hr, _⟩
  · exact absurd h0 hsetup
  · rw [hm] at h0; simp at h0
  · simp [driver_operation_error] at hr
  · simp [driver_operation_error] at hr
  · rcases lora_join_result_cases ux with h0 | h0 | h0 <;>
      (rw [h0] at hr; simp [driver_operation_error] at hr)

/-- C8 (amended), at concrete inputs: the OTAA device after set-up. -/
theorem C8_witness :
    afterSetup.DEVADDR = 0 ∧ allZero afterSetup.NWKSKEY 16 ∧ allZero afterSetup.APPSKEY 16 ∧
    (lora_must_join afterSetup = true ∧
    (afterSetup.setup ≠ 0 → ∀ s1, lora_join cfgEU868 afterSetup joinEnvOk ≠
      Outcome.returned (driver_operation_error LoraErr.ABPExpected) s1)) :=
  ⟨by decide, by decide, by decide,
   C8_must_join_without_session cfgEU868 afterSetup joinEnvOk (by decide) (by decide)
     (by decide)⟩

/-! ## The paths through `lora_tx` -/

theorem lora_tx_not_setup (cfg : Config) (s : Driver) (cnf port : Int) (data : List Char)
    (e : TxEnv) (h1 : s.setup = 0) :
    lora_tx cfg s cnf port data e =
      Outcome.returned (driver_operation_error LoraErr.NotSetup) (mtx_unlock (mtx_lock s)) := by
  have e1 : (mtx_lock s).setup = 0 := h1
  simp [lora_tx, e1]

theorem lora_tx_no_mem (cfg : Config) (s : Driver) (cnf port : Int) (data : List Char)
    (e : TxEnv) (h1 : s.setup ≠ 0) (h2 : e.malloc_ok = false) :
    lora_tx cfg s cnf port data e =
      Outcome.returned (driver_operation_error LoraErr.NoMem) (mtx_unlock (mtx_lock s)) := by
  have e1 : (mtx_lock s).setup ≠ 0 := h1
  simp [lora_tx, e1, h2]

theorem lora_tx_rejected (cfg : Config) (s : Driver) (cnf port : Int) (data : List Char)
    (e : TxEnv) (err : driver_error_t) (h1 : s.setup ≠ 0) (h2 : e.malloc_ok = true)
    (h3 : e.tx_error = some err) :
    lora_tx cfg s cnf port data e =
      Outcome.returned (some err)
        (mtx_unlock ((mtx_lock s).log
          (Action._lora_tx cnf port (hex_string_to_val data (payload_len data))
            (payload_len data)))) := by
  have e1 : (mtx_lock s).setup ≠ 0 := h1
  simp [lora_tx, e1, h2, h3]

theorem lora_tx_accepted (cfg : Config) (s : Driver) (cnf port : Int) (data : List Char)
    (e : TxEnv) (h1 : s.setup ≠ 0) (h2 : e.malloc_ok = true) (h3 : e.tx_error = none) :
    lora_tx cfg s cnf port data e =
      match xEventGroupWaitBits cfg (evLORA_TX_COMPLETE ||| evLORA_ACK_NOT_RECEIVED) e.wait
          { (mtx_lock s).log
              (Action._lora_tx cnf port (hex_string_to_val data (payload_len data))
                (payload_len data)) with msgid := (s.msgid + 1) % 2 ^ 32 } with
      | Wait.stuck t => Outcome.blocked t
      | Wait.woken uxBits t => Outcome.returned (lora_tx_result uxBits) (mtx_unlock t) := by
  simp [lora_tx, h1, h2, h3, Driver.log, mtx_lock]

/-- An accepted transmission that returns has advanced the counter by one
(modulo 2^32) and left `setup` alone. -/
theorem lora_tx_accepted_returned (cfg : Config) (s : Driver) (cnf port : Int)
    (data : List Char) (e : TxEnv) (r : Result) (s1 : Driver)
    (h1 : s.setup ≠ 0) (h2 : e.malloc_ok = true) (h3 : e.tx_error = none)
    (h : lora_tx cfg s cnf port data e = Outcome.returned r s1) :
    s1.msgid = (s.msgid + 1) % 2 ^ 32 ∧ s1.setup = s.setup := by
  rw [lora_tx_accepted cfg s cnf port data e h1 h2 h3] at h
  split at h
  · simp at h
  · rename_i ux t hw
    simp only [Outcome.returned.injEq] at h
    obtain ⟨_, rfl⟩ := h
    have hf := wait_frame_woken hw
    exact ⟨hf.2.2.2.2.2.2.2.2.2.1, hf.2.2.2.2.2.2.2.2.2.2.1⟩

/-! ## C2 -/

/-- The counter after a run made of accepted transmissions and activations of
the stack, from any starting value. -/
theorem run_accepted_msgid (cfg : Config) (calls : List Call) :
    ∀ (s s1 : Driver), s.setup ≠ 0 →
      (∀ c ∈ calls, isAcceptedTx c = true ∨ isStack c = true) →
      run cfg s calls = some s1 →
      s1.msgid = (s.msgid + calls.countP isAcceptedTx) % 2 ^ 32 ∧ s1.msgid < 2 ^ 32 ∨
      (calls.countP isAcceptedTx = 0 ∧ s1.msgid = s.msgid) := by
  induction calls with
  | nil =>
    intro s s1 _ _ hrun
    simp only [run, Option.some.injEq] at hrun
    subst hrun
    exact Or.inr ⟨rfl, rfl⟩
  | cons c rest ih =>
    intro s s1 hsetup hcalls hrun
    have hc := hcalls c (List.mem_cons_self _ _)
    have hrest : ∀ c ∈ rest, isAcceptedTx c = true ∨ isStack c = true :=
      fun c hc => hcalls c (List.mem_cons_of_mem _ hc)
    simp only [run] at hrun
    cases c with
    | stack k =>
      simp only [step] at hrun
      have hf := stackRun_frame cfg k s
      have hm : (stackRun cfg k s).msgid = s.msgid := hf.2.2.2.2.2.2.2.2.2.1
      have hs : (stackRun cfg k s).setup = s.setup := hf.2.2.2.2.2.2.2.2.2.2.1
      have hcnt : (Call.stack k :: rest).countP isAcceptedTx = rest.countP isAcceptedTx := by
        simp [List.countP_cons, isAcceptedTx]
      rw [hcnt, ← hm]
      exact ih _ s1 (by rw [hs]; exact hsetup) hrest hrun
    | lora_tx cnf port data e =>
      have hacc : isAcceptedTx (Call.lora_tx cnf port data e) = true := by
        rcases hc with h | h
        · exact h
        · simp [isStack] at h
      have h2 : e.malloc_ok = true ∧ e.tx_error = none := by
        simpa [isAcceptedTx, Option.isNone_iff_eq_none] using hacc
      simp only [step] at hrun
      cases hout : lora_tx cfg s cnf port data e with
      | blocked t => rw [hout] at hrun; simp [Outcome.after] at hrun
      | returned r t =>
        rw [hout] at hrun
        simp only [Outcome.after] at hrun
        obtain ⟨hm, hs⟩ := lora_tx_accepted_returned cfg s cnf port data e r t hsetup h2.1 h2.2 hout
        have hcnt : (Call.lora_tx cnf port data e :: rest).countP isAcceptedTx =
            rest.countP isAcceptedTx + 1 := by
          simp [List.countP_cons, hacc]
        have hlt : t.msgid < 2 ^ 32 := by rw [hm]; exact Nat.mod_lt _ (by norm_num)
        left
        rcases ih t s1 (by rw [hs]; exact hsetup) hrest hrun with ⟨h, hb⟩ | ⟨h0, h⟩
        · refine ⟨?_, hb⟩
          rw [h, hm, hcnt]
          omega
        · refine ⟨?_, by rw [h]; exact hlt⟩
          rw [h, hm, hcnt, h0]
    | lora_setup band err w =>
      rcases hc with h | h <;> simp [isAcceptedTx, isStack] at h
    | lora_join w =>
      rcases hc with h | h <;> simp [isAcceptedTx, isStack] at h
    | lora_set_rx_callback cb =>
      rcases hc with h | h <;> simp [isAcceptedTx, isStack] at h

/-- C2: from a set-up state with the sequence counter at 0, after any run made
of `transmit()` calls whose submission is accepted (and of activations of the
stack between them, but no join), the counter equals the number N of those
calls modulo 2^32, whichever bits each call was woken with; and one accepted
`transmit()` that returns, with success or with any error, has raised the
counter by exactly 1. -/
theorem C2_counter_counts_accepted (cfg : Config) (s : Driver) (calls : List Call)
    (s1 : Driver) (hsetup : s.setup ≠ 0) (h0 : s.msgid = 0)
    (hcalls : ∀ c ∈ calls, isAcceptedTx c = true ∨ isStack c = true)
    (hrun : run cfg s calls = some s1) :
    s1.msgid = (calls.countP isAcceptedTx) % 2 ^ 32 ∧
    (∀ cnf port data e r s2, e.malloc_ok = true → e.tx_error = none →
      lora_tx cfg s cnf port data e = Outcome.returned r s2 → s2.msgid = s.msgid + 1) := by
  constructor
  · rcases run_accepted_msgid cfg calls s s1 hsetup hcalls hrun with ⟨h, _⟩ | ⟨hc, h⟩
    · rw [h, h0, Nat.zero_add]
    · rw [h, h0, hc]
      rfl
  · intro cnf port data e r s2 h2 h3 h
    rw [(lora_tx_accepted_returned cfg s cnf port data e r s2 hsetup h2 h3 h).1, h0]
    rfl

/-- C2 at concrete inputs: after the join, one unconfirmed transmission that
completes and one confirmed transmission that is not acknowledged leave 2 in
the counter. -/
theorem C2_witness :
    afterJoin.setup ≠ 0 ∧ afterJoin.msgid = 0 ∧
    run cfgEU868 afterJoin [txHello, txHelloNack] = some afterTwoTx ∧
    (afterTwoTx.msgid = ([txHello, txHelloNack].countP isAcceptedTx) % 2 ^ 32 ∧
    (∀ cnf port data e r s2, e.malloc_ok = true → e.tx_error = none →
      lora_tx cfgEU868 afterJoin cnf port data e = Outcome.returned r s2 →
      s2.msgid = afterJoin.msgid + 1)) :=
  ⟨by decide, by decide, by decide,
   C2_counter_counts_accepted cfgEU868 afterJoin [txHello, txHelloNack] afterTwoTx
     (by decide) (by decide) (by decide) (by decide)⟩

/-! ## The trace only grows -/

theorem traceExt_refl (s : Driver) : TraceExt s s := ⟨[], by simp⟩

theorem traceExt_trans {a b c : Driver} (h1 : TraceExt a b) (h2 : TraceExt b c) :
    TraceExt a c := by
  obtain ⟨l1, e1⟩ := h1
  obtain ⟨l2, e2⟩ := h2
  exact ⟨l1 ++ l2, by rw [e2, e1, List.append_assoc]⟩

theorem log_ext (s : Driver) (a : Action) : TraceExt s (s.log a) := ⟨[a], rfl⟩

theorem setBits_ext (s : Driver) (b : Nat) : TraceExt s (xEventGroupSetBits s b) :=
  ⟨[Action.xEventGroupSetBits b], rfl⟩

theorem lora_init_ext (cfg : Config) (s : Driver) : TraceExt s (lora_init cfg s) := by
  unfold lora_init
  cases cfg.BAND_EU868 <;> cases cfg.BAND_US915 <;>
    simp [TraceExt, xEventGroupSetBits, Driver.log]

theorem onEvent_txcomplete_ext (cfg : Config) (LMIC : lmic_t) (m : Bool) (s : Driver) :
    TraceExt s (onEvent_txcomplete cfg LMIC m s) := by
  unfold onEvent_txcomplete
  cases hcb : s.lora_rx_callback <;>
    (split_ifs <;> simp [TraceExt, xEventGroupSetBits, Driver.log, hcb])

theorem onEvent_ext (cfg : Config) (LMIC : lmic_t) (m : Bool) (ev : ev_t) (s : Driver) :
    TraceExt s (onEvent cfg LMIC m ev s) := by
  cases ev <;>
    first
    | exact onEvent_txcomplete_ext cfg LMIC m s
    | simp [onEvent, TraceExt, xEventGroupSetBits, Driver.log]

theorem stackRun_ext (cfg : Config) (c : StackCall) (s : Driver) :
    TraceExt s (stackRun cfg c s) := by
  cases c with
  | lora_init => exact lora_init_ext cfg s
  | onEvent ev LMIC m => exact onEvent_ext cfg LMIC m ev s

theorem stackRunAll_ext (cfg : Config) (l : List StackCall) :
    ∀ s, TraceExt s (stackRunAll cfg l s) := by
  induction l with
  | nil => intro s; exact traceExt_refl s
  | cons c rest ih =>
    intro s
    exact traceExt_trans (stackRun_ext cfg c s) (ih _)

theorem blockOn_ext (cfg : Config) (bits : Nat) (l : List StackCall) :
    ∀ s, TraceExt s (blockOn cfg bits l s).state := by
  induction l with
  | nil =>
    intro s
    unfold blockOn
    split_ifs <;> exact ⟨[], by simp [Wait.state]⟩
  | cons c rest ih =>
    intro s
    unfold blockOn
    split_ifs
    · exact ⟨[], by simp [Wait.state]⟩
    · split
      · exact stackRun_ext cfg c s
      · exact traceExt_trans (stackRun_ext cfg c s) (ih _)

/-- A wait only appends to the trace. -/
theorem wait_ext (cfg : Config) (bits : Nat) (w : WaitEnv) (s : Driver) :
    TraceExt s (xEventGroupWaitBits cfg bits w s).state := by
  unfold xEventGroupWaitBits
  exact traceExt_trans (traceExt_trans (stackRunAll_ext cfg _ s) (log_ext _ _))
    (blockOn_ext cfg bits _ _)

/-! ## The JOINED bit and the joined flag -/

theorem no_joined_bit {b : Nat} {P : Prop} (hb : b &&& evLORA_JOINED = 0) :
    b &&& evLORA_JOINED ≠ 0 → P :=
  fun h => absurd hb h

theorem or_ne_zero_left {a : Nat} (c : Nat) (h : a ≠ 0) : a ||| c ≠ 0 := by
  obtain ⟨i, hi⟩ := Nat.ne_zero_implies_bit_true h
  intro h0
  have hb := Nat.testBit_or a c i
  rw [h0, hi] at hb
  simp at hb

theorem and_or_ne_zero {x m : Nat} (b : Nat) (h : x &&& m ≠ 0) : (x ||| b) &&& m ≠ 0 := by
  rw [Nat.and_distrib_right]
  exact or_ne_zero_left _ h

theorem and_or_split {x b m : Nat} (h : (x ||| b) &&& m ≠ 0) :
    x &&& m ≠ 0 ∨ b &&& m ≠ 0 := by
  by_contra hn
  push_neg at hn
  apply h
  rw [Nat.and_distrib_right, hn.1, hn.2]
  rfl

theorem foldl_or_mono (bs : List Nat) : ∀ (ev m : Nat), ev &&& m ≠ 0 →
    (bs.foldl (· ||| ·) ev) &&& m ≠ 0 := by
  induction bs with
  | nil => intro ev m h; exact h
  | cons b rest ih =>
    intro ev m h
    exact ih _ m (and_or_ne_zero b h)

theorem newTrace_of_append (s t : Driver) (l : List Action) (h : t.trace = s.trace ++ l) :
    newTrace s t = l := by
  unfold newTrace
  rw [h, List.drop_left]

theorem setBitsOf_append (l1 l2 : List Action) :
    setBitsOf (l1 ++ l2) = setBitsOf l1 ++ setBitsOf l2 := by
  induction l1 with
  | nil => rfl
  | cons a rest ih =>
    cases a <;> simp [setBitsOf, ih]

/-- The `xEventGroupSetBits` calls of one activation of the stack account for
what it does to the event group, and one of them carries the JOINED bit only
in an activation that sets the joined flag. -/
theorem stackRun_setBits (cfg : Config) (c : StackCall) (s : Driver) :
    (stackRun cfg c s).loraEvent =
        (setBitsOf (newTrace s (stackRun cfg c s))).foldl (· ||| ·) s.loraEvent ∧
      (∀ b ∈ setBitsOf (newTrace s (stackRun cfg c s)),
        b &&& evLORA_JOINED ≠ 0 → (stackRun cfg c s).joined ≠ 0) := by
  have key : ∀ (t : Driver) (l : List Action), t.trace = s.trace ++ l →
      t.loraEvent = (setBitsOf l).foldl (· ||| ·) s.loraEvent →
      (∀ b ∈ setBitsOf l, b &&& evLORA_JOINED ≠ 0 → t.joined ≠ 0) →
      t.loraEvent = (setBitsOf (newTrace s t)).foldl (· ||| ·) s.loraEvent ∧
      (∀ b ∈ setBitsOf (newTrace s t), b &&& evLORA_JOINED ≠ 0 → t.joined ≠ 0) := by
    intro t l h1 h2 h3
    rw [newTrace_of_append s t l h1]
    exact ⟨h2, h3⟩
  cases c with
  | lora_init =>
    simp only [stackRun, lora_init]
    cases cfg.BAND_EU868 <;> cases cfg.BAND_US915 <;>
      (refine key _ _ (by simp [xEventGroupSetBits, Driver.log]; rfl) ?_ ?_
       · simp [xEventGroupSetBits, Driver.log, setBitsOf]
       · simp only [setBitsOf, List.mem_singleton]
         intro b hb
         subst hb
         exact no_joined_bit (by decide))
  | onEvent ev LMIC m =>
    cases ev
    case EV_JOINED =>
      exact key _ [Action.xEventGroupSetBits evLORA_JOINED, Action.LMIC_dn2Dr cfg.DR_SF9]
        (by simp [stackRun, onEvent, xEventGroupSetBits, Driver.log])
        (by simp [stackRun, onEvent, xEventGroupSetBits, Driver.log, setBitsOf])
        (by simp [stackRun, onEvent, xEventGroupSetBits, Driver.log])
    case EV_JOIN_FAILED =>
      refine key _ [Action.xEventGroupSetBits evLORA_JOIN_DENIED]
        (by simp [stackRun, onEvent, xEventGroupSetBits])
        (by simp [stackRun, onEvent, xEventGroupSetBits, setBitsOf]) ?_
      simp only [setBitsOf, List.mem_singleton]
      intro b hb
      subst hb
      exact no_joined_bit (by decide)
    case EV_TXCOMPLETE =>
      simp only [stackRun, onEvent, onEvent_txcomplete]
      by_cases hp : LMIC.pendTxConf ≠ 0
      · by_cases ha : LMIC.txrxFlags &&& cfg.TXRX_ACK ≠ 0 <;>
          by_cases hn : LMIC.txrxFlags &&& cfg.TXRX_NACK ≠ 0
        · refine key _ [Action.xEventGroupSetBits evLORA_TX_COMPLETE,
              Action.xEventGroupSetBits evLORA_ACK_NOT_RECEIVED]
            (by simp [hp, ha, hn, xEventGroupSetBits])
            (by simp [hp, ha, hn, xEventGroupSetBits, setBitsOf]) ?_
          simp only [setBitsOf, List.mem_cons, List.mem_singleton, List.not_mem_nil, or_false]
          rintro b (hb | hb) <;> (subst hb; exact no_joined_bit (by decide))
        · refine key _ [Action.xEventGroupSetBits evLORA_TX_COMPLETE]
            (by simp [hp, ha, hn, xEventGroupSetBits])
            (by simp [hp, ha, hn, xEventGroupSetBits, setBitsOf]) ?_
          simp only [setBitsOf, List.mem_singleton]
          intro b hb
          subst hb
          exact no_joined_bit (by decide)
        · refine key _ [Action.xEventGroupSetBits evLORA_ACK_NOT_RECEIVED]
            (by simp [hp, ha, hn, xEventGroupSetBits])
            (by simp [hp, ha, hn, xEventGroupSetBits, setBitsOf]) ?_
          simp only [setBitsOf, List.mem_singleton]
          intro b hb
          subst hb
          exact no_joined_bit (by decide)
        · exact key _ [] (by simp [hp, ha, hn]) (by simp [hp, ha, hn, setBitsOf])
            (by simp [setBitsOf])
      · simp only [hp, if_false]
        cases hcb : s.lora_rx_callback with
        | none =>
          refine key _ [Action.xEventGroupSetBits evLORA_TX_COMPLETE]
            (by simp [xEventGroupSetBits]) (by simp [xEventGroupSetBits, setBitsOf]) ?_
          simp only [setBitsOf, List.mem_singleton]
          intro b hb
          subst hb
          exact no_joined_bit (by decide)
        | some cb =>
          simp only []
          split_ifs
          · refine key _ [Action.lora_rx_callback cb 1
                (val_to_hex_string (LMIC.frame.drop LMIC.dataBeg) LMIC.dataLen),
                Action.xEventGroupSetBits evLORA_TX_COMPLETE]
              (by simp [xEventGroupSetBits, Driver.log])
              (by simp [xEventGroupSetBits, Driver.log, setBitsOf]) ?_
            simp only [setBitsOf, List.mem_singleton]
            intro b hb
            subst hb
            exact no_joined_bit (by decide)
          · refine key _ [Action.xEventGroupSetBits evLORA_TX_COMPLETE]
              (by simp [xEventGroupSetBits]) (by simp [xEventGroupSetBits, setBitsOf]) ?_
            simp only [setBitsOf, List.mem_singleton]
            intro b hb
            subst hb
            exact no_joined_bit (by decide)
    all_goals
      exact key _ [] (by simp [stackRun, onEvent]) (by simp [stackRun, onEvent, setBitsOf])
        (by simp [setBitsOf])

/-- No task is unblocked: the calls only set their bits, none of them in `bits`. -/
theorem deliverBits_none (bits : Nat) (bs : List Nat) : ∀ (ev ev1 : Nat), ev &&& bits = 0 →
    deliverBits bits ev bs = (none, ev1) →
    ev1 = bs.foldl (· ||| ·) ev ∧ ev1 &&& bits = 0 := by
  induction bs with
  | nil =>
    intro ev ev1 h0 h
    simp only [deliverBits, Prod.mk.injEq, true_and] at h
    subst h
    exact ⟨rfl, h0⟩
  | cons b rest ih =>
    intro ev ev1 h0 h
    unfold deliverBits at h
    split_ifs at h with hc
    · simp at h
    · exact ih _ _ (by simpa using hc) h

/-- The task is unblocked: what it is handed, and what is left in the group. -/
theorem deliverBits_some (bits : Nat) (bs : List Nat) : ∀ (ev ux ev1 : Nat),
    deliverBits bits ev bs = (some ux, ev1) →
    ux &&& bits ≠ 0 ∧ (∀ m, ev &&& m ≠ 0 → ux &&& m ≠ 0) ∧
    (∀ m, ux &&& m ≠ 0 → (bs.foldl (· ||| ·) ev) &&& m ≠ 0) ∧
    (∀ m, ux &&& m ≠ 0 → ev &&& m ≠ 0 ∨ ∃ b ∈ bs, b &&& m ≠ 0) ∧
    ∃ later : List Nat, ev1 = later.foldl (· ||| ·) (ux &&& (0xFFFFFFFF ^^^ bits)) := by
  induction bs with
  | nil =>
    intro ev ux ev1 h
    simp [deliverBits] at h
  | cons b rest ih =>
    intro ev ux ev1 h
    unfold deliverBits at h
    split_ifs at h with hc
    · simp only [Prod.mk.injEq, Option.some.injEq] at h
      obtain ⟨hu, he⟩ := h
      subst hu
      refine ⟨hc, fun m hm => and_or_ne_zero b hm, fun m hm => foldl_or_mono rest _ m hm,
        fun m hm => ?_, rest, he.symm⟩
      rcases and_or_split hm with h1 | h1
      · exact Or.inl h1
      · exact Or.inr ⟨b, List.mem_cons_self _ _, h1⟩
    · obtain ⟨a1, a2, a3, a4, a5⟩ := ih _ ux ev1 h
      refine ⟨a1, fun m hm => a2 m (and_or_ne_zero b hm), a3, fun m hm => ?_, a5⟩
      rcases a4 m hm with h1 | ⟨b1, hb1, h1⟩
      · rcases and_or_split h1 with h2 | h2
        · exact Or.inl h2
        · exact Or.inr ⟨b, List.mem_cons_self _ _, h2⟩
      · exact Or.inr ⟨b1, List.mem_cons_of_mem _ hb1, h1⟩

theorem and_joined_of_and_mask (x : Nat)
    (h : x &&& (evLORA_JOINED ||| evLORA_JOIN_DENIED) = 0) : x &&& evLORA_JOINED = 0 := by
  have e : evLORA_JOINED = (evLORA_JOINED ||| evLORA_JOIN_DENIED) &&& evLORA_JOINED := by decide
  rw [e, ← Nat.and_assoc, h, Nat.zero_and]

/-- A caller that really blocked for JOINED | JOIN_DENIED and is woken with the
JOINED bit finds the joined flag set. -/
theorem blockOn_joined (cfg : Config) (l : List StackCall) :
    ∀ (s : Driver) (ux : Nat) (t : Driver),
      s.loraEvent &&& (evLORA_JOINED ||| evLORA_JOIN_DENIED) = 0 →
      blockOn cfg (evLORA_JOINED ||| evLORA_JOIN_DENIED) l s = Wait.woken ux t →
      ux &&& evLORA_JOINED ≠ 0 → t.joined ≠ 0 := by
  induction l with
  | nil =>
    intro s ux t h0 hb _
    simp [blockOn, h0] at hb
  | cons c rest ih =>
    intro s ux t h0 hb hux
    simp only [blockOn, h0, ne_eq, not_true_eq_false, if_false] at hb
    obtain ⟨hfold, hjoin⟩ := stackRun_setBits cfg c s
    split at hb
    · rename_i ux1 ev hdel
      simp only [Wait.woken.injEq] at hb
      obtain ⟨hu, ht⟩ := hb
      subst hu
      obtain ⟨_, _, _, a4, _⟩ := deliverBits_some _ _ _ _ _ hdel
      have hj : (stackRun cfg c s).joined ≠ 0 := by
        rcases a4 _ hux with h1 | ⟨b, hb1, h1⟩
        · exact absurd (and_joined_of_and_mask _ h0) h1
        · exact hjoin b hb1 h1
      rw [← ht]
      exact hj
    · rename_i ev hdel
      obtain ⟨e1, e2⟩ := deliverBits_none _ _ _ _ h0 hdel
      rw [← hfold] at e1
      rw [e1] at e2
      exact ih _ ux t e2 hb hux

theorem lora_join_result_none (ux : Nat) (h : lora_join_result ux = none) :
    ux &&& evLORA_JOINED ≠ 0 := by
  unfold lora_join_result at h
  split_ifs at h with h1 h2
  · exact h1
  · simp [driver_operation_error] at h
  · simp [driver_operation_error] at h

theorem lora_join_request_frame (s : Driver) :
    (lora_join_request s).setup = s.setup ∧ (lora_join_request s).APPEUI = s.APPEUI ∧
    (lora_join_request s).DEVEUI = s.DEVEUI ∧ (lora_join_request s).APPKEY = s.APPKEY ∧
    (lora_join_request s).DEVADDR = s.DEVADDR ∧ (lora_join_request s).APPSKEY = s.APPSKEY ∧
    (lora_join_request s).lora_mtx = s.lora_mtx := by
  simp only [lora_join_request]
  split_ifs <;> simp [Driver.log]

/-! ## C6 -/

/-- C6 (as stated) fails on a reachable state. After a denied join the stack,
with no call in progress, reports EV_JOINED and later EV_REJOIN_FAILED: the
JOINED bit stays pending while the joined flag is clear. The next `join()` is woken at
once by the stale bit and returns success; the `join()` called immediately
after it issues a new join request and blocks. -/
theorem C6_counterexample :
    Reachable cfgEU868 staleJoined ∧
    lora_join cfgEU868 staleJoined quiet = Outcome.returned none staleFirst ∧
    lora_join cfgEU868 staleFirst quiet = Outcome.blocked staleSecond ∧
    staleSecond.trace = staleFirst.trace ++
      [Action.LMIC_setDrTxpow 5 14, Action.hal_lmic_join, Action.xEventGroupWaitBits 6] :=
  ⟨⟨eui8, eui8, key16, 0, zeros16, zeros16, 7, staleCalls, by decide⟩,
   by decide, by decide, by decide⟩

/-- C6 (amended): if a `join()` call returns success, either because the device
was already joined or after a wait that it entered with neither the JOINED nor
the JOIN_DENIED bit pending, then the joined flag is set on return and a second
`join()` called immediately afterwards returns success in the very same state:
no data-rate or join request, no wait, driver state and counter unchanged. -/
theorem C6_join_idempotent (cfg : Config) (s : Driver) (w : WaitEnv) (s1 : Driver)
    (h : lora_join cfg s w = Outcome.returned none s1)
    (hfresh : s.joined ≠ 0 ∨
      (joinWaitEntry cfg s w).loraEvent &&& (evLORA_JOINED ||| evLORA_JOIN_DENIED) = 0) :
    s1.joined ≠ 0 ∧
    ∀ w2, lora_join cfg s1 w2 = Outcome.returned none s1 ∧
      (lora_join cfg s1 w2).state.trace = s1.trace ∧
      (lora_join cfg s1 w2).state.msgid = s1.msgid := by
  have key : s1.joined ≠ 0 ∧ s1.setup ≠ 0 ∧ lora_must_join s1 = true ∧
      lora_can_participate_otaa s1 = true ∧ mtx_unlock (mtx_lock s1) = s1 := by
    rcases lora_join_returned cfg s w none s1 h with
      ⟨_, hr, _⟩ | ⟨_, _, hr, _⟩ | ⟨_, _, _, hr, _⟩ | ⟨h1, h2, h3, h4, _, hs⟩ |
      ⟨h1, h2, h3, h4, ux, t, hw, hr, hs⟩
    · simp [driver_operation_error] at hr
    · simp [driver_operation_error] at hr
    · simp [driver_operation_error] at hr
    · subst hs
      exact ⟨h4, h1, h2, h3, rfl⟩
    · subst hs
      have hentry : (joinWaitEntry cfg s w).loraEvent &&&
          (evLORA_JOINED ||| evLORA_JOIN_DENIED) = 0 := by
        rcases hfresh with hj | hb
        · exact absurd h4 hj
        · exact hb
      have hjoined : t.joined ≠ 0 :=
        blockOn_joined cfg w.while_blocked (joinWaitEntry cfg s w) ux t hentry hw
          (lora_join_result_none ux hr.symm)
      obtain ⟨_, _, f3, f4, f5, f6, _, f8, _, _, f11, _⟩ := wait_frame_woken hw
      obtain ⟨g1, g2, g3, g4, g5, g6, _⟩ := lora_join_request_frame (mtx_lock s)
      have e1 : (mtx_unlock t).setup = s.setup := f11.trans g1
      have e2 : lora_must_join (mtx_unlock t) = lora_must_join s := by
        have a1 : (mtx_unlock t).DEVADDR = s.DEVADDR := f6.trans g5
        have a2 : (mtx_unlock t).APPSKEY = s.APPSKEY := f8.trans g6
        simp only [lora_must_join, a1, a2]
      have e3 : lora_can_participate_otaa (mtx_unlock t) = lora_can_participate_otaa s := by
        have a1 : (mtx_unlock t).APPEUI = s.APPEUI := f3.trans g2
        have a2 : (mtx_unlock t).DEVEUI = s.DEVEUI := f4.trans g3
        have a3 : (mtx_unlock t).APPKEY = s.APPKEY := f5.trans g4
        simp only [lora_can_participate_otaa, a1, a2, a3]
      exact ⟨hjoined, by rw [e1]; exact h1, by rw [e2]; exact h2, by rw [e3]; exact h3, rfl⟩
  obtain ⟨k1, k2, k3, k4, k5⟩ := key
  refine ⟨k1, fun w2 => ?_⟩
  rw [lora_join_joined cfg s1 w2 k2 k3 k4 k1, k5]
  exact ⟨rfl, rfl, rfl⟩

/-- C6 (amended), at concrete inputs: the set-up device joins (EV_JOINING, then
EV_JOINED while it is blocked) and calls `join()` again. -/
theorem C6_witness :
    lora_join cfgEU868 afterSetup joinEnvOk = Outcome.returned none afterJoin ∧
    (afterSetup.joined ≠ 0 ∨
      (joinWaitEntry cfgEU868 afterSetup joinEnvOk).loraEvent &&&
        (evLORA_JOINED ||| evLORA_JOIN_DENIED) = 0) ∧
    (afterJoin.joined ≠ 0 ∧
    ∀ w2, lora_join cfgEU868 afterJoin w2 = Outcome.returned none afterJoin ∧
      (lora_join cfgEU868 afterJoin w2).state.trace = afterJoin.trace ∧
      (lora_join cfgEU868 afterJoin w2).state.msgid = afterJoin.msgid) :=
  ⟨by decide, by decide,
   C6_join_idempotent cfgEU868 afterSetup joinEnvOk afterJoin (by decide) (by decide)⟩

/-! ## C9 -/

/-- C9 (as stated) fails: a set-up driver without any credential, neither
joined nor ABP-ready, transmits; the payload is submitted to the stack and the
counter goes from 7 to 8. -/
theorem C9_counterexample :
    bareSetup.setup ≠ 0 ∧ bareSetup.joined = 0 ∧
    lora_can_participate_otaa bareSetup = false ∧
    lora_can_participate_abp bareSetup = false ∧
    lora_tx cfgEU868 bareSetup 0 1 hello txEnvOk = Outcome.returned none bareAfterTx ∧
    bareAfterTx.trace = bareSetup.trace ++
      [Action._lora_tx 0 1 [72, 101, 108, 108, 111] 5,
       Action.xEventGroupWaitBits 24, Action.xEventGroupSetBits 8] ∧
    bareSetup.msgid = 7 ∧ bareAfterTx.msgid = 8 := by
  decide

/-- C9 (amended): the activation gating of `transmit()` is not compiled. For
every set-up driver state, whatever the credentials and the joined flag hold,
`transmit()` submits the decoded payload to the stack as its first external
call once the payload buffer is allocated; it returns without submitting
anything and without changing the sequence counter (or anything but the mutex)
when the allocation fails, with NotEnoughMemory. -/
theorem C9_tx_no_activation_gate (cfg : Config) (s : Driver) (cnf port : Int)
    (data : List Char) (e : TxEnv) (hsetup : s.setup ≠ 0) :
    (e.malloc_ok = true → ∃ rest,
      (lora_tx cfg s cnf port data e).state.trace =
        s.trace ++ Action._lora_tx cnf port
          (hex_string_to_val data (payload_len data)) (payload_len data) :: rest) ∧
    (e.malloc_ok = false →
      lora_tx cfg s cnf port data e =
        Outcome.returned (driver_operation_error LoraErr.NoMem) { s with lora_mtx := false }) := by
  constructor
  · intro hm
    cases herr : e.tx_error with
    | some err =>
      rw [lora_tx_rejected cfg s cnf port data e err hsetup hm herr]
      exact ⟨[], rfl⟩
    | none =>
      rw [lora_tx_accepted cfg s cnf port data e hsetup hm herr]
      have hx := wait_ext cfg (evLORA_TX_COMPLETE ||| evLORA_ACK_NOT_RECEIVED) e.wait
        { (mtx_lock s).log
            (Action._lora_tx cnf port (hex_string_to_val data (payload_len data))
              (payload_len data)) with msgid := (s.msgid + 1) % 2 ^ 32 }
      obtain ⟨l, hl⟩ := hx
      refine ⟨l, ?_⟩
      split
      · rename_i t hw
        rw [hw] at hl
        simpa [Outcome.state, Wait.state, Driver.log, mtx_lock] using hl
      · rename_i ux t hw
        rw [hw] at hl
        simpa [Outcome.state, Wait.state, Driver.log, mtx_lock, mtx_unlock] using hl
  · intro hm
    rw [lora_tx_no_mem cfg s cnf port data e hsetup hm, mtx_unlock_lock]

/-- C9 (amended), at concrete inputs: the set-up driver without credentials. -/
theorem C9_witness :
    bareSetup.setup ≠ 0 ∧
    ((txEnvOk.malloc_ok = true → ∃ rest,
      (lora_tx cfgEU868 bareSetup 0 1 hello txEnvOk).state.trace =
        bareSetup.trace ++ Action._lora_tx 0 1
          (hex_string_to_val hello (payload_len hello)) (payload_len hello) :: rest) ∧
    (txEnvOk.malloc_ok = false →
      lora_tx cfgEU868 bareSetup 0 1 hello txEnvOk =
        Outcome.returned (driver_operation_error LoraErr.NoMem)
          { bareSetup with lora_mtx := false })) :=
  ⟨by decide, C9_tx_no_activation_gate cfgEU868 bareSetup 0 1 hello txEnvOk (by decide)⟩

/-! ## C10 -/

/-- The decoder produces the number of bytes it is asked for when the string
holds that many digit pairs. -/
theorem hex_string_to_val_length (n : Nat) : ∀ data : List Char, 2 * n ≤ data.length →
    (hex_string_to_val data n).length = n := by
  induction n with
  | zero => intro data _; simp [hex_string_to_val]
  | succ n ih =>
    intro data h
    match data, h with
    | hi :: lo :: rest, h =>
      simp only [hex_string_to_val, List.length_cons]
      rw [ih rest (by simp only [List.length_cons] at h; omega)]

/-- Below 512 characters the 8-bit length is the number of digit pairs. -/
theorem payload_len_of_short (data : List Char) (h : strlen data < 512) :
    payload_len data = strlen data / 2 := by
  unfold payload_len
  exact Nat.mod_eq_of_lt (by omega)

set_option maxRecDepth 10000 in
/-- C10, the code at the failing input: for a hex string of 512 characters the
8-bit `payload_len` is 0, and `transmit()` submits an empty payload of length 0
instead of 256 bytes. -/
theorem C10_payload_len_wraps :
    strlen longHex = 512 ∧ strlen longHex / 2 = 256 ∧ payload_len longHex = 0 ∧
    lora_tx cfgEU868 afterJoin 0 1 longHex txEnvOk = Outcome.returned none afterLongTx ∧
    afterLongTx.trace = afterJoin.trace ++
      [Action._lora_tx 0 1 [] 0,
       Action.xEventGroupWaitBits 24, Action.xEventGroupSetBits 8] := by
  decide

/-! ## The paths through `lora_setup` -/

theorem lora_setup_invalid_band (cfg : Config) (s : Driver) (band : Int) (err : Result)
    (w : WaitEnv) (hb : ¬ bandAccepted cfg band) :
    lora_setup cfg s band err w =
      Outcome.returned (driver_operation_error LoraErr.InvalidBand) s := by
  unfold bandAccepted at hb
  unfold lora_setup
  by_cases h1 : cfg.BAND_EU868 = true ∧ band ≠ 868
  · rw [if_pos h1]
  · rw [if_neg h1]
    have h2 : cfg.BAND_US915 = true ∧ band ≠ 915 := by tauto
    rw [if_pos h2]

theorem lora_setup_done (cfg : Config) (s : Driver) (band : Int) (err : Result)
    (w : WaitEnv) (hb : bandAccepted cfg band) (h : s.setup ≠ 0) :
    lora_setup cfg s band err w =
      Outcome.returned none (mtx_unlock { mtx_lock s with setup := 1 }) := by
  obtain ⟨h1, h2⟩ := hb
  have e1 : (mtx_lock s).setup ≠ 0 := h
  simp only [lora_setup, if_neg h1, if_neg h2, if_neg e1]

theorem lora_setup_cant (cfg : Config) (s : Driver) (band : Int) (e : driver_error_t)
    (w : WaitEnv) (hb : bandAccepted cfg band) (h : s.setup = 0) :
    lora_setup cfg s band (some e) w =
      Outcome.returned (driver_operation_error LoraErr.CantSetup)
        (mtx_unlock { setupStarted s with setup := 0 }) := by
  obtain ⟨h1, h2⟩ := hb
  have e1 : (mtx_lock s).setup = 0 := h
  simp only [lora_setup, if_neg h1, if_neg h2, if_pos e1, setupStarted]
  rfl

theorem lora_setup_wait (cfg : Config) (s : Driver) (band : Int) (w : WaitEnv)
    (hb : bandAccepted cfg band) (h : s.setup = 0) :
    lora_setup cfg s band none w =
      match xEventGroupWaitBits cfg evLORA_INITED w
          ((setupStarted s).log Action.os_setCallback_lora_init) with
      | Wait.stuck t => Outcome.blocked t
      | Wait.woken _ t => Outcome.returned none (mtx_unlock { t with setup := 1 }) := by
  obtain ⟨h1, h2⟩ := hb
  have e1 : (mtx_lock s).setup = 0 := h
  simp only [lora_setup, if_neg h1, if_neg h2, if_pos e1, setupStarted]
  rfl

theorem setupStarted_frame (s : Driver) :
    (setupStarted s).lora_mtx = true ∧ SameVars s (setupStarted s) := by
  unfold setupStarted
  split_ifs <;> simp [SameVars, Driver.log, mtx_lock]

/-! ## The paths through `lora_tx`, continued -/

/-- C12 (as stated) fails: with a callback registered and two bytes of downlink
data, the tx-complete event of a confirmed uplink only sets TX_COMPLETE, and so
does the event of an unconfirmed uplink when the buffer for the hex string
cannot be allocated; the callback is not invoked. -/
theorem C12_counterexample :
    withCallback.lora_rx_callback = some 42 ∧
    downlinkConf.dataLen = 2 ∧ downlinkUnconf.dataLen = 2 ∧
    newTrace withCallback (onEvent cfgEU868 downlinkConf true ev_t.EV_TXCOMPLETE withCallback) =
      [Action.xEventGroupSetBits evLORA_TX_COMPLETE] ∧
    newTrace withCallback (onEvent cfgEU868 downlinkUnconf false ev_t.EV_TXCOMPLETE withCallback) =
      [Action.xEventGroupSetBits evLORA_TX_COMPLETE] := by
  decide

/-- C12 (amended): for every tx-complete stack event of an unconfirmed uplink
that carries downlink data (dataLen > 0) while a receive callback is
registered, if the buffer for the hex string is allocated, the event handler
invokes the callback with port 1 and the hex encoding of the dataLen payload
bytes, and only after that sets the TX_COMPLETE bit; these are its only two
external calls. -/
theorem C12_downlink_before_wake (cfg : Config) (LMIC : lmic_t) (s : Driver) (cb : Nat)
    (hunconf : LMIC.pendTxConf = 0) (hlen : LMIC.dataLen ≠ 0)
    (hcb : s.lora_rx_callback = some cb) :
    (onEvent cfg LMIC true ev_t.EV_TXCOMPLETE s).trace =
      s.trace ++
        [Action.lora_rx_callback cb 1
           (val_to_hex_string (LMIC.frame.drop LMIC.dataBeg) LMIC.dataLen),
         Action.xEventGroupSetBits evLORA_TX_COMPLETE] ∧
    (onEvent cfg LMIC true ev_t.EV_TXCOMPLETE s).loraEvent =
      s.loraEvent ||| evLORA_TX_COMPLETE := by
  simp [onEvent, onEvent_txcomplete, hunconf, hlen, hcb, xEventGroupSetBits, Driver.log]

/-- C12 (amended), at concrete inputs: the two downlink bytes AB CD after an
unconfirmed uplink reach the callback as the string abcd. -/
theorem C12_witness :
    downlinkUnconf.pendTxConf = 0 ∧ downlinkUnconf.dataLen ≠ 0 ∧
    withCallback.lora_rx_callback = some 42 ∧
    val_to_hex_string (downlinkUnconf.frame.drop downlinkUnconf.dataBeg) downlinkUnconf.dataLen =
      ['a', 'b', 'c', 'd'] ∧
    ((onEvent cfgEU868 downlinkUnconf true ev_t.EV_TXCOMPLETE withCallback).trace =
      withCallback.trace ++
        [Action.lora_rx_callback 42 1
           (val_to_hex_string (downlinkUnconf.frame.drop downlinkUnconf.dataBeg)
             downlinkUnconf.dataLen),
         Action.xEventGroupSetBits evLORA_TX_COMPLETE] ∧
    (onEvent cfgEU868 downlinkUnconf true ev_t.EV_TXCOMPLETE withCallback).loraEvent =
      withCallback.loraEvent ||| evLORA_TX_COMPLETE) :=
  ⟨by decide, by decide, by decide, by decide,
   C12_downlink_before_wake cfgEU868 downlinkUnconf withCallback 42 (by decide) (by decide)
     (by decide)⟩

/-! ## C13 -/

/-- The lock in the LMIC build: every entry point that returns, from a state
with the mutex free, returns with the mutex free. -/
theorem lmic_build_releases_lock (cfg : Config) (s : Driver) (hfree : s.lora_mtx = false) :
    (∀ band err w r s1, lora_setup cfg s band err w = Outcome.returned r s1 →
      s1.lora_mtx = false) ∧
    (∀ w r s1, lora_join cfg s w = Outcome.returned r s1 → s1.lora_mtx = false) ∧
    (∀ cnf port data e r s1, lora_tx cfg s cnf port data e = Outcome.returned r s1 →
      s1.lora_mtx = false) ∧
    (∀ command value err r s1, lora_mac_set s command value err = Outcome.returned r s1 →
      s1.lora_mtx = false) ∧
    (∀ command err r s1, lora_mac_get s command err = Outcome.returned r s1 →
      s1.lora_mtx = false) ∧
    (∀ cb, (lora_set_rx_callback s cb).lora_mtx = false) := by
  refine ⟨?_, ?_, ?_, ?_, ?_, ?_⟩
  · intro band err w r s1 h
    by_cases hb : bandAccepted cfg band
    · by_cases h0 : s.setup = 0
      · cases err with
        | some e =>
          rw [lora_setup_cant cfg s band e w hb h0] at h
          simp only [Outcome.returned.injEq] at h
          rw [← h.2]; rfl
        | none =>
          rw [lora_setup_wait cfg s band w hb h0] at h
          split at h
          · simp at h
          · simp only [Outcome.returned.injEq] at h
            rw [← h.2]; rfl
      · rw [lora_setup_done cfg s band err w hb h0] at h
        simp only [Outcome.returned.injEq] at h
        rw [← h.2]; rfl
    · rw [lora_setup_invalid_band cfg s band err w hb] at h
      simp only [Outcome.returned.injEq] at h
      rw [← h.2]; exact hfree
  · intro w r s1 h
    rcases lora_join_returned cfg s w r s1 h with
      ⟨_, _, hs⟩ | ⟨_, _, _, hs⟩ | ⟨_, _, _, _, hs⟩ | ⟨_, _, _, _, _, hs⟩ |
      ⟨_, _, _, _, ux, t, _, _, hs⟩ <;> (rw [hs]; rfl)
  · intro cnf port data e r s1 h
    by_cases h0 : s.setup = 0
    · rw [lora_tx_not_setup cfg s cnf port data e h0] at h
      simp only [Outcome.returned.injEq] at h
      rw [← h.2]; rfl
    · cases hm : e.malloc_ok with
      | false =>
        rw [lora_tx_no_mem cfg s cnf port data e h0 hm] at h
        simp only [Outcome.returned.injEq] at h
        rw [← h.2]; rfl
      | true =>
        cases herr : e.tx_error with
        | some err =>
          rw [lora_tx_rejected cfg s cnf port data e err h0 hm herr] at h
          simp only [Outcome.returned.injEq] at h
          rw [← h.2]; rfl
        | none =>
          rw [lora_tx_accepted cfg s cnf port data e h0 hm herr] at h
          split at h
          · simp at h
          · simp only [Outcome.returned.injEq] at h
            rw [← h.2]; rfl
  · intro command value err r s1 h
    unfold lora_mac_set at h
    simp only at h
    split_ifs at h
    · simp only [Outcome.returned.injEq] at h
      rw [← h.2]; rfl
    · cases err <;>
        (simp only [Outcome.returned.injEq] at h; rw [← h.2]; rfl)
  · intro command err r s1 h
    unfold lora_mac_get at h
    cases err <;>
      (simp only [Outcome.returned.injEq] at h; rw [← h.2]; rfl)
  · intro cb
    rfl

/-- C13, the code at the failing input: in the Semtech build `lora_setup(868)`
takes the free mutex and, when `_lora_setup()` fails, returns that error with
the mutex still held; the LMIC build releases it on the matching path. -/
theorem C13_semtech_setup_keeps_lock :
    otaaBoot.lora_mtx = false ∧
    lora_setup_semtech cfgEU868 otaaBoot 868 (some (driver_error_t.callee 1)) =
      Outcome.returned (some (driver_error_t.callee 1)) semtechFailed ∧
    semtechFailed.lora_mtx = true ∧
    lora_setup cfgEU868 otaaBoot 868 (some (driver_error_t.callee 1)) quiet =
      Outcome.returned (driver_operation_error LoraErr.CantSetup) setupFailed ∧
    setupFailed.lora_mtx = false := by
  decide

/-! ## C14 -/

/-- C14: with `setup == 0`, `join()` and `transmit()` (any arguments) return
NotSetup, whatever the credentials and the joined flag hold; the state comes
back with the mutex released and nothing else touched, so no credential test,
allocation, stack call or wait took place. -/
theorem C14_not_setup_gating (cfg : Config) (s : Driver) (hsetup : s.setup = 0) :
    (∀ w, lora_join cfg s w =
      Outcome.returned (driver_operation_error LoraErr.NotSetup) { s with lora_mtx := false }) ∧
    (∀ cnf port data e, lora_tx cfg s cnf port data e =
      Outcome.returned (driver_operation_error LoraErr.NotSetup) { s with lora_mtx := false }) :=
  ⟨fun w => by rw [lora_join_not_setup cfg s w hsetup, mtx_unlock_lock],
   fun cnf port data e => by rw [lora_tx_not_setup cfg s cnf port data e hsetup, mtx_unlock_lock]⟩

/-- C14 at concrete inputs: the provisioned device at boot. -/
theorem C14_witness :
    otaaBoot.setup = 0 ∧
    ((∀ w, lora_join cfgEU868 otaaBoot w =
      Outcome.returned (driver_operation_error LoraErr.NotSetup)
        { otaaBoot with lora_mtx := false }) ∧
    (∀ cnf port data e, lora_tx cfgEU868 otaaBoot cnf port data e =
      Outcome.returned (driver_operation_error LoraErr.NotSetup)
        { otaaBoot with lora_mtx := false })) :=
  ⟨by decide, C14_not_setup_gating cfgEU868 otaaBoot (by decide)⟩

/-! ## C15 -/

theorem sameVars_unlock_lock (s : Driver) : SameVars s (mtx_unlock (mtx_lock s)) := by
  simp [SameVars, mtx_unlock, mtx_lock]

/-- C15: the configuration and lifecycle error paths preserve the state. A
`setup(band)` that returns InvalidBand returns in the very state it was called
in; a `join()` that returns NotSetup, ABPExpected or KeysNotConfigured and a
`transmit()` that returns NotSetup leave setupDone, joined, sessionInitialized,
data rate, ADR flag, credentials, sequence counter, pending event bits and
receive callback as they were; `setup(868)` on a driver compiled for the 915
band returns InvalidBand in an unchanged state, so setupDone stays false. -/
theorem C15_error_paths_preserve_state (cfg : Config) (s : Driver) :
    (∀ band err w s1, lora_setup cfg s band err w =
        Outcome.returned (driver_operation_error LoraErr.InvalidBand) s1 → s1 = s) ∧
    (∀ w e s1, lora_join cfg s w = Outcome.returned (driver_operation_error e) s1 →
      (e = LoraErr.NotSetup ∨ e = LoraErr.ABPExpected ∨ e = LoraErr.KeysNotConfigured) →
      SameVars s s1 ∧ s1.trace = s.trace) ∧
    (∀ cnf port data e s1, lora_tx cfg s cnf port data e =
        Outcome.returned (driver_operation_error LoraErr.NotSetup) s1 → SameVars s s1) ∧
    (cfg.BAND_US915 = true → ∀ err w,
      lora_setup cfg s 868 err w =
        Outcome.returned (driver_operation_error LoraErr.InvalidBand) s ∧
      (s.setup = 0 → (lora_setup cfg s 868 err w).state.setup = 0)) := by
  refine ⟨?_, ?_, ?_, ?_⟩
  · intro band err w s1 h
    by_cases hb : bandAccepted cfg band
    · exfalso
      by_cases h0 : s.setup = 0
      · cases err with
        | some e =>
          rw [lora_setup_cant cfg s band e w hb h0] at h
          simp [driver_operation_error] at h
        | none =>
          rw [lora_setup_wait cfg s band w hb h0] at h
          split at h <;> simp [driver_operation_error] at h
      · rw [lora_setup_done cfg s band err w hb h0] at h
        simp [driver_operation_error] at h
    · rw [lora_setup_invalid_band cfg s band err w hb] at h
      simp only [Outcome.returned.injEq] at h
      exact h.2.symm
  · intro w e s1 h he
    rcases lora_join_returned cfg s w _ s1 h with
      ⟨_, _, hs⟩ | ⟨_, _, _, hs⟩ | ⟨_, _, _, _, hs⟩ | ⟨_, _, _, _, hr, _⟩ |
      ⟨_, _, _, _, ux, t, _, hr, _⟩
    · subst hs; exact ⟨sameVars_unlock_lock s, rfl⟩
    · subst hs; exact ⟨sameVars_unlock_lock s, rfl⟩
    · subst hs; exact ⟨sameVars_unlock_lock s, rfl⟩
    · simp [driver_operation_error] at hr
    · exfalso
      rcases lora_join_result_cases ux with h0 | h0 | h0
      · rw [h0] at hr; simp [driver_operation_error] at hr
      · rw [h0] at hr
        simp only [driver_operation_error, Option.some.injEq, driver_error_t.lora.injEq] at hr
        subst hr
        simp at he
      · rw [h0] at hr
        simp only [driver_operation_error, Option.some.injEq, driver_error_t.lora.injEq] at hr
        subst hr
        simp at he
  · intro cnf port data e s1 h
    by_cases h0 : s.setup = 0
    · rw [lora_tx_not_setup cfg s cnf port data e h0] at h
      simp only [Outcome.returned.injEq] at h
      rw [← h.2]
      exact sameVars_unlock_lock s
    · cases hm : e.malloc_ok with
      | false =>
        rw [lora_tx_no_mem cfg s cnf port data e h0 hm] at h
        simp [driver_operation_error] at h
      | true =>
        cases herr : e.tx_error with
        | some err =>
          rw [lora_tx_rejected cfg s cnf port data e err h0 hm herr] at h
          simp only [Outcome.returned.injEq] at h
          rw [← h.2]
          simp [SameVars, mtx_unlock, mtx_lock, Driver.log]
        | none =>
          rw [lora_tx_accepted cfg s cnf port data e h0 hm herr] at h
          exfalso
          split at h
          · simp at h
          · rename_i ux t _
            simp only [Outcome.returned.injEq] at h
            have hr := h.1
            unfold lora_tx_result at hr
            split_ifs at hr <;> simp [driver_operation_error] at hr
  · intro h915 err w
    have hb : ¬ bandAccepted cfg 868 := by
      unfold bandAccepted
      intro hacc
      exact hacc.2 ⟨h915, by decide⟩
    rw [lora_setup_invalid_band cfg s 868 err w hb]
    exact ⟨rfl, fun h => h⟩

/-! ## C16 -/

/-- C16: on a driver that is set up (mutex free), `setup(band)` with the band
of the compiled region returns success without any external call (no second
initialisation of the stack, no wait); it stores 1 in `setup` again and
touches nothing else, so with `setup == 1`, the only non-zero value the driver
ever stores, the call returns in the very state it was called in. -/
theorem C16_setup_idempotent (cfg : Config) (s : Driver) (band : Int) (err : Result)
    (w : WaitEnv) (hdone : s.setup ≠ 0) (hfree : s.lora_mtx = false)
    (hband : bandAccepted cfg band) :
    lora_setup cfg s band err w = Outcome.returned none { s with setup := 1 } ∧
    newTrace s (lora_setup cfg s band err w).state = [] ∧
    (s.setup = 1 → lora_setup cfg s band err w = Outcome.returned none s) := by
  have hs : mtx_unlock { mtx_lock s with setup := 1 } = { s with setup := 1 } := by
    cases s
    simp only at hfree
    subst hfree
    rfl
  rw [lora_setup_done cfg s band err w hband hdone, hs]
  refine ⟨rfl, by simp [Outcome.state, newTrace], fun h1 => ?_⟩
  cases s
  simp only at h1
  subst h1
  rfl

/-- C16 at concrete inputs: a second `lora_setup(868)` on the set-up device;
the stack would even answer, and is not asked. -/
theorem C16_witness :
    afterSetup.setup ≠ 0 ∧ afterSetup.lora_mtx = false ∧ bandAccepted cfgEU868 868 ∧
    (lora_setup cfgEU868 afterSetup 868 none joinEnvOk =
      Outcome.returned none { afterSetup with setup := 1 } ∧
    newTrace afterSetup (lora_setup cfgEU868 afterSetup 868 none joinEnvOk).state = [] ∧
    (afterSetup.setup = 1 →
      lora_setup cfgEU868 afterSetup 868 none joinEnvOk = Outcome.returned none afterSetup)) :=
  ⟨by decide, by decide, by decide,
   C16_setup_idempotent cfgEU868 afterSetup 868 none joinEnvOk (by decide) (by decide)
     (by decide)⟩

/-! ## C17 -/

/-- No activation of the stack context requests a join. -/
theorem stackRun_no_join (cfg : Config) (c : StackCall) (s : Driver) :
    ∃ l, (stackRun cfg c s).trace = s.trace ++ l ∧ Action.hal_lmic_join ∉ l := by
  cases c with
  | lora_init =>
    simp only [stackRun, lora_init]
    cases cfg.BAND_EU868 <;> cases cfg.BAND_US915 <;>
      simp [xEventGroupSetBits, Driver.log]
  | onEvent ev LMIC m =>
    cases ev
    case EV_TXCOMPLETE =>
      simp only [stackRun, onEvent, onEvent_txcomplete]
      cases hcb : s.lora_rx_callback <;>
        (split_ifs <;> simp [xEventGroupSetBits, Driver.log])
    all_goals simp [stackRun, onEvent, xEventGroupSetBits, Driver.log]

theorem stackRunAll_no_join (cfg : Config) (l : List StackCall) :
    ∀ s, ∃ r, (stackRunAll cfg l s).trace = s.trace ++ r ∧ Action.hal_lmic_join ∉ r := by
  induction l with
  | nil => intro s; exact ⟨[], by simp [stackRunAll]⟩
  | cons c rest ih =>
    intro s
    obtain ⟨l1, e1, n1⟩ := stackRun_no_join cfg c s
    obtain ⟨l2, e2, n2⟩ := ih (stackRun cfg c s)
    refine ⟨l1 ++ l2, ?_, ?_⟩
    · simp only [stackRunAll]
      rw [e2, e1, List.append_assoc]
    · simp [n1, n2]

theorem blockOn_no_join (cfg : Config) (bits : Nat) (l : List StackCall) :
    ∀ s, ∃ r, (blockOn cfg bits l s).state.trace = s.trace ++ r ∧
      Action.hal_lmic_join ∉ r := by
  induction l with
  | nil =>
    intro s
    unfold blockOn
    split_ifs <;> exact ⟨[], by simp [Wait.state]⟩
  | cons c rest ih =>
    intro s
    unfold blockOn
    split_ifs
    · exact ⟨[], by simp [Wait.state]⟩
    · obtain ⟨l1, e1, n1⟩ := stackRun_no_join cfg c s
      split
      · exact ⟨l1, e1, n1⟩
      · obtain ⟨l2, e2, n2⟩ := ih (stackRun cfg c s)
        exact ⟨l1 ++ l2, by rw [e2, e1, List.append_assoc], by simp [n1, n2]⟩

/-- What a wait on JOINED | JOIN_DENIED adds to the trace: the wait itself, and
no join request. -/
theorem join_wait_trace (cfg : Config) (w : WaitEnv) (s : Driver) :
    ∃ rest, (xEventGroupWaitBits cfg (evLORA_JOINED ||| evLORA_JOIN_DENIED) w s).state.trace =
        s.trace ++ rest ∧
      Action.xEventGroupWaitBits (evLORA_JOINED ||| evLORA_JOIN_DENIED) ∈ rest ∧
      Action.hal_lmic_join ∉ rest := by
  unfold xEventGroupWaitBits
  obtain ⟨l1, e1, n1⟩ := stackRunAll_no_join cfg w.before_wait s
  obtain ⟨l2, e2, n2⟩ := blockOn_no_join cfg (evLORA_JOINED ||| evLORA_JOIN_DENIED)
    w.while_blocked ((stackRunAll cfg w.before_wait s).log
      (Action.xEventGroupWaitBits (evLORA_JOINED ||| evLORA_JOIN_DENIED)))
  refine ⟨l1 ++ Action.xEventGroupWaitBits (evLORA_JOINED ||| evLORA_JOIN_DENIED) :: l2, ?_, ?_, ?_⟩
  · simp only []
    rw [e2]
    simp [Driver.log, e1, List.append_assoc]
  · simp
  · simp [n1, n2]

/-! ## C18 -/

theorem lora_join_request_eq (s : Driver) : lora_join_request (mtx_lock s) = joinRequested s := by
  simp only [lora_join_request, joinRequested]
  by_cases h : s.adr = 0
  · have e : (mtx_lock s).adr = 0 := h
    simp [h, e, Driver.log, mtx_lock]
  · have e : (mtx_lock s).adr ≠ 0 := h
    simp [h, e, Driver.log, mtx_lock]

/-- The handler of a confirmed tx-complete event with both flags calls
`xEventGroupSetBits` twice; the blocked `transmit()` is woken inside the first
call, with TX_COMPLETE alone, and the second call leaves ACK_NOT_RECEIVED
pending after the return. -/
theorem wake_inside_first_setBits :
    lora_tx cfgEU868 joinedAfterTx 1 1 hello txEnvAckNack = Outcome.returned none afterAckNack ∧
    afterAckNack.loraEvent = evLORA_ACK_NOT_RECEIVED := by
  decide

/-- C19: `join()` takes its request path exactly when the driver is set up, a
join is required, the OTAA credentials are complete and the joined flag is
clear. On that path it resets the counter to 0, calls `LMIC_setDrTxpow(current_dr,
14)` exactly when `adr == 0`, requests one join, then waits on JOINED |
JOIN_DENIED, and the result is success if the wait returns JOINED, NotJoined if
it returns JOIN_DENIED only, UnexpectedResponse if neither. In every other
state `join()` returns in the state it was called in, the mutex released: no
request to the stack, counter untouched. -/
theorem C19_join_request_path (cfg : Config) (s : Driver) (w : WaitEnv) :
    ((s.setup ≠ 0 ∧ lora_must_join s = true ∧ lora_can_participate_otaa s = true ∧
        s.joined = 0) →
      (joinRequested s).msgid = 0 ∧
      (joinRequested s).trace = s.trace ++
        (if s.adr = 0 then [Action.LMIC_setDrTxpow s.current_dr 14] else []) ++
        [Action.hal_lmic_join] ∧
      lora_join cfg s w =
        (match xEventGroupWaitBits cfg (evLORA_JOINED ||| evLORA_JOIN_DENIED) w
            (joinRequested s) with
        | Wait.stuck t => Outcome.blocked t
        | Wait.woken B t => Outcome.returned (lora_join_result B) (mtx_unlock t)) ∧
      (lora_join cfg s w).state.msgid = 0 ∧
      ∃ rest, (lora_join cfg s w).state.trace = (joinRequested s).trace ++ rest ∧
        Action.xEventGroupWaitBits (evLORA_JOINED ||| evLORA_JOIN_DENIED) ∈ rest ∧
        Action.hal_lmic_join ∉ rest) ∧
    (∀ B, (B &&& evLORA_JOINED ≠ 0 → lora_join_result B = none) ∧
      (B &&& evLORA_JOINED = 0 → B &&& evLORA_JOIN_DENIED ≠ 0 →
        lora_join_result B = driver_operation_error LoraErr.NotJoined) ∧
      (B &&& evLORA_JOINED = 0 → B &&& evLORA_JOIN_DENIED = 0 →
        lora_join_result B = driver_operation_error LoraErr.UnexpectedResponse)) ∧
    (¬ (s.setup ≠ 0 ∧ lora_must_join s = true ∧ lora_can_participate_otaa s = true ∧
        s.joined = 0) →
      ∃ r, lora_join cfg s w = Outcome.returned r { s with lora_mtx := false }) := by
  refine ⟨?_, ?_, ?_⟩
  · rintro ⟨h1, h2, h3, h4⟩
    have hpath := lora_join_path cfg s w h1 h2 h3 h4
    rw [lora_join_request_eq] at hpath
    have hrest := join_wait_trace cfg w (joinRequested s)
    have hmsg : (xEventGroupWaitBits cfg (evLORA_JOINED ||| evLORA_JOIN_DENIED) w
        (joinRequested s)).state.msgid = 0 := by
      have hf := wait_frame cfg (evLORA_JOINED ||| evLORA_JOIN_DENIED) w (joinRequested s)
      exact hf.2.2.2.2.2.2.2.2.2.1
    refine ⟨rfl, rfl, hpath, ?_, ?_⟩
    · rw [hpath]
      cases hw : xEventGroupWaitBits cfg (evLORA_JOINED ||| evLORA_JOIN_DENIED) w
          (joinRequested s) with
      | stuck t => rw [hw] at hmsg; exact hmsg
      | woken B t => rw [hw] at hmsg; exact hmsg
    · rw [hpath]
      cases hw : xEventGroupWaitBits cfg (evLORA_JOINED ||| evLORA_JOIN_DENIED) w
          (joinRequested s) with
      | stuck t => rw [hw] at hrest; exact hrest
      | woken B t => rw [hw] at hrest; exact hrest
  · intro B
    refine ⟨?_, ?_, ?_⟩
    · intro h; simp [lora_join_result, h]
    · intro h1 h2; simp [lora_join_result, h1, h2]
    · intro h1 h2; simp [lora_join_result, h1, h2]
  · intro hn
    by_cases h1 : s.setup = 0
    · exact ⟨_, by rw [lora_join_not_setup cfg s w h1, mtx_unlock_lock]⟩
    by_cases h2 : lora_must_join s = false
    · exact ⟨_, by rw [lora_join_abp cfg s w h1 h2, mtx_unlock_lock]⟩
    have h2t : lora_must_join s = true := by simpa using h2
    by_cases h3 : lora_can_participate_otaa s = false
    · exact ⟨_, by rw [lora_join_keys cfg s w h1 h2t h3, mtx_unlock_lock]⟩
    have h3t : lora_can_participate_otaa s = true := by simpa using h3
    have h4 : s.joined ≠ 0 := fun h => hn ⟨h1, h2t, h3t, h⟩
    exact ⟨_, by rw [lora_join_joined cfg s w h1 h2t h3t h4, mtx_unlock_lock]⟩

/-! ## C20 -/

/-- C20: `onEvent(EV_TXCOMPLETE)` sets TX_COMPLETE if and only if the uplink
was unconfirmed (`pendTxConf == 0`) or the ACK flag is set, and sets
ACK_NOT_RECEIVED if and only if the uplink was confirmed and the NACK flag is
set; the event group gets exactly those bits. A confirmed tx-complete event
with neither flag sets no bit and leaves the whole driver state as it was. -/
theorem C20_txcomplete_bits (cfg : Config) (LMIC : lmic_t) (m : Bool) (s : Driver) :
    (Action.xEventGroupSetBits evLORA_TX_COMPLETE ∈
        newTrace s (onEvent cfg LMIC m ev_t.EV_TXCOMPLETE s) ↔
      (LMIC.pendTxConf = 0 ∨ LMIC.txrxFlags &&& cfg.TXRX_ACK ≠ 0)) ∧
    (Action.xEventGroupSetBits evLORA_ACK_NOT_RECEIVED ∈
        newTrace s (onEvent cfg LMIC m ev_t.EV_TXCOMPLETE s) ↔
      (LMIC.pendTxConf ≠ 0 ∧ LMIC.txrxFlags &&& cfg.TXRX_NACK ≠ 0)) ∧
    (onEvent cfg LMIC m ev_t.EV_TXCOMPLETE s).loraEvent =
      (s.loraEvent |||
        (if LMIC.pendTxConf = 0 ∨ LMIC.txrxFlags &&& cfg.TXRX_ACK ≠ 0
          then evLORA_TX_COMPLETE else 0)) |||
        (if LMIC.pendTxConf ≠ 0 ∧ LMIC.txrxFlags &&& cfg.TXRX_NACK ≠ 0
          then evLORA_ACK_NOT_RECEIVED else 0) ∧
    (LMIC.pendTxConf ≠ 0 → LMIC.txrxFlags &&& cfg.TXRX_ACK = 0 →
      LMIC.txrxFlags &&& cfg.TXRX_NACK = 0 →
      onEvent cfg LMIC m ev_t.EV_TXCOMPLETE s = s) := by
  have hne : evLORA_TX_COMPLETE ≠ evLORA_ACK_NOT_RECEIVED := by decide
  by_cases hp : LMIC.pendTxConf = 0
  · -- unconfirmed uplink
    have htr : ∃ l, (onEvent cfg LMIC m ev_t.EV_TXCOMPLETE s).trace =
        s.trace ++ l ++ [Action.xEventGroupSetBits evLORA_TX_COMPLETE] ∧
        Action.xEventGroupSetBits evLORA_ACK_NOT_RECEIVED ∉ l ∧
        (onEvent cfg LMIC m ev_t.EV_TXCOMPLETE s).loraEvent =
          s.loraEvent ||| evLORA_TX_COMPLETE := by
      simp only [onEvent, onEvent_txcomplete, hp, ne_eq, not_true_eq_false, if_false]
      cases hcb : s.lora_rx_callback with
      | none => exact ⟨[], by simp [xEventGroupSetBits], by simp, by simp [xEventGroupSetBits]⟩
      | some cb =>
        simp only []
        split_ifs
        · exact ⟨[Action.lora_rx_callback cb 1
              (val_to_hex_string (LMIC.frame.drop LMIC.dataBeg) LMIC.dataLen)],
            by simp [xEventGroupSetBits, Driver.log], by simp,
            by simp [xEventGroupSetBits, Driver.log]⟩
        · exact ⟨[], by simp [xEventGroupSetBits], by simp, by simp [xEventGroupSetBits]⟩
    obtain ⟨l, e1, n1, e2⟩ := htr
    have hnew := newTrace_of_append s _ (l ++ [Action.xEventGroupSetBits evLORA_TX_COMPLETE])
      (by rw [e1, List.append_assoc])
    refine ⟨?_, ?_, ?_, ?_⟩
    · rw [hnew]; simp [hp]
    · rw [hnew]; simp [hp, n1, hne.symm]
    · rw [e2]; simp [hp]
    · intro h; exact absurd hp h
  · -- confirmed uplink
    by_cases ha : LMIC.txrxFlags &&& cfg.TXRX_ACK = 0 <;>
      by_cases hn : LMIC.txrxFlags &&& cfg.TXRX_NACK = 0
    · have e : onEvent cfg LMIC m ev_t.EV_TXCOMPLETE s = s := by
        simp [onEvent, onEvent_txcomplete, hp, ha, hn]
      rw [e]
      simp [newTrace, hp, ha, hn]
    · have e : onEvent cfg LMIC m ev_t.EV_TXCOMPLETE s =
          xEventGroupSetBits s evLORA_ACK_NOT_RECEIVED := by
        simp [onEvent, onEvent_txcomplete, hp, ha, hn]
      have hnew := newTrace_of_append s (xEventGroupSetBits s evLORA_ACK_NOT_RECEIVED)
        [Action.xEventGroupSetBits evLORA_ACK_NOT_RECEIVED] rfl
      rw [e, hnew]
      simp [hp, ha, hn, hne, xEventGroupSetBits]
    · have e : onEvent cfg LMIC m ev_t.EV_TXCOMPLETE s =
          xEventGroupSetBits s evLORA_TX_COMPLETE := by
        simp [onEvent, onEvent_txcomplete, hp, ha, hn]
      have hnew := newTrace_of_append s (xEventGroupSetBits s evLORA_TX_COMPLETE)
        [Action.xEventGroupSetBits evLORA_TX_COMPLETE] rfl
      rw [e, hnew]
      simp [hp, ha, hn, hne.symm, xEventGroupSetBits]
    · have e : onEvent cfg LMIC m ev_t.EV_TXCOMPLETE s =
          xEventGroupSetBits (xEventGroupSetBits s evLORA_TX_COMPLETE)
            evLORA_ACK_NOT_RECEIVED := by
        simp [onEvent, onEvent_txcomplete, hp, ha, hn]
      have hnew := newTrace_of_append s
        (xEventGroupSetBits (xEventGroupSetBits s evLORA_TX_COMPLETE) evLORA_ACK_NOT_RECEIVED)
        [Action.xEventGroupSetBits evLORA_TX_COMPLETE,
         Action.xEventGroupSetBits evLORA_ACK_NOT_RECEIVED]
        (by simp [xEventGroupSetBits])
      rw [e, hnew]
      simp [hp, ha, hn, xEventGroupSetBits]

end Lora
